import Mathlib

/-!
# bookAPI: the record service of `server.js`

A shallow embedding of the route handlers of `src/server.js` (get, create,
update, delete, search) and of its store helpers (`readBooks`, `writeBooks`),
together with the JavaScript value semantics they rely on (truthiness, `||`,
`===`, object spread), followed by the properties of the specification that
concern them.  "Successful" means that the response envelope
has `success: true`; "non-empty" means truthy.

Modelling conventions

* A field value is a JSON scalar (`JsValue`); `undefined` stands for an absent
  property.  Numbers are integers, the only numbers of the data model; array
  and object values, which no field of the data model has, are not represented.
* A book and a request body are JavaScript objects: property lists in
  insertion order (`JsObject`).
* The text of the data file is represented by the value `JSON.parse` returns
  for it (`DataFile`), and `JSON.stringify` by the value its text parses to
  (`stringifyBooks`); the case mapping `toLowerCase` of the runtime is a
  parameter of the search.
* A handler receives the array returned by `readBooks()` and the environment
  of the request (`Env`: the identifier generator, the clock, the outcome of
  the file write).  It returns the HTTP response together with the array that
  a completed `writeBooks` call stored, if any (`Outcome`).
-/

namespace BookAPI

/-! ## JavaScript values -/

/-- A JSON scalar, or `undefined` for a property that is absent. -/
inductive JsValue where
  | undefined
  | null
  | bool (b : Bool)
  | number (n : Int)
  | string (s : String)
  deriving DecidableEq, Repr

namespace JsValue

/-- JavaScript `ToBoolean`: `undefined`, `null`, `false`, `0` and `""` are
falsy, every other scalar is truthy. -/
def truthy : JsValue → Bool
  | undefined => false
  | null => false
  | bool b => b
  | number n => decide (n ≠ 0)
  | string s => decide (s ≠ "")

/-- The expression `a || b`: `a` when it is truthy, otherwise `b`. -/
def or (a b : JsValue) : JsValue :=
  if a.truthy then a else b

/-- The expression `a === b` on scalars. -/
def strictEq (a b : JsValue) : Bool :=
  decide (a = b)

end JsValue

open JsValue

/-- A JavaScript object: its own properties in insertion order.  The property
names of an object are distinct; nothing below relies on it. -/
abbrev JsObject := List (String × JsValue)

/-- Property read `o.k`: the value of the property, `undefined` when absent. -/
def getProp (o : JsObject) (k : String) : JsValue :=
  match o with
  | [] => JsValue.undefined
  | (k0, v0) :: rest => if k0 = k then v0 else getProp rest k

/-- Definition of property `k` in an object literal that already holds the
properties `o` (as after a spread): an existing property keeps its position and
takes the new value, a new property goes last. -/
def setProp (o : JsObject) (k : String) (v : JsValue) : JsObject :=
  match o with
  | [] => [(k, v)]
  | (k0, v0) :: rest => if k0 = k then (k, v) :: rest else (k0, v0) :: setProp rest k v

/-- A stored record. -/
abbrev Book := JsObject

/-! ## HTTP responses -/

/-- The `data` member of a response envelope. -/
inductive Data where
  | book (b : Book)
  | books (bs : List Book)
  deriving DecidableEq, Repr

/-- The status code and JSON envelope a handler sends. -/
structure Response where
  status : Nat
  success : Bool
  message : Option String := none
  count : Option Nat := none
  query : Option String := none
  data : Option Data := none
  error : Option String := none
  deriving DecidableEq, Repr

/-- What a handler did: the response, and the array stored by a `writeBooks`
call that completed (`none` when `writeBooks` was not called or threw). -/
structure Outcome where
  response : Response
  written : Option (List Book)
  deriving DecidableEq, Repr

/-- The collection persisted after a request that found `before` persisted. -/
def Outcome.persisted (o : Outcome) (before : List Book) : List Book :=
  o.written.getD before

/-- The collaborators of one request. -/
structure Env where
  /-- The value `uuidv4()` returns. -/
  uuid : String
  /-- The value the `n`-th evaluation of `new Date().toISOString()` returns. -/
  clock : Nat → String
  /-- The error `fs.writeFile` rejects with, `none` when it resolves. -/
  writeError : Option String

/-! ## Store -/

/-- `writeBooks(books)`: stores the array, or throws
`Error('Failed to write to database')` when `fs.writeFile` rejects. -/
def writeBooks (env : Env) (books : List Book) : Except String (List Book) :=
  match env.writeError with
  | none => Except.ok books
  | some _ => Except.error "Failed to write to database"

/-! ## Route handlers -/

/-- The object literal `newBook` of `POST /api/books`, built from the
destructured request body; the two timestamps are two evaluations of
`new Date().toISOString()`. -/
def newBook (body : JsObject) (env : Env) : Book :=
  let title := getProp body "title"
  let author := getProp body "author"
  let isbn := getProp body "isbn"
  let genre := getProp body "genre"
  let publishedYear := getProp body "publishedYear"
  let description := getProp body "description"
  [ ("id", JsValue.string env.uuid),
    ("title", title),
    ("author", author),
    ("isbn", isbn.or JsValue.null),
    ("genre", genre.or (JsValue.string "Unknown")),
    ("publishedYear", publishedYear.or JsValue.null),
    ("description", description.or (JsValue.string "")),
    ("createdAt", JsValue.string (env.clock 0)),
    ("updatedAt", JsValue.string (env.clock 1)) ]

/-- `POST /api/books`. -/
def postBooks (body : JsObject) (books : List Book) (env : Env) : Outcome :=
  let title := getProp body "title"
  let author := getProp body "author"
  let isbn := getProp body "isbn"
  if !title.truthy || !author.truthy then
    { response := { status := 400, success := false,
                    message := some "Title and author are required fields" },
      written := none }
  else if isbn.truthy && books.any (fun book => strictEq (getProp book "isbn") isbn) then
    { response := { status := 400, success := false,
                    message := some "Book with this ISBN already exists" },
      written := none }
  else
    let created : Book := newBook body env
    match writeBooks env (books ++ [created]) with
    | Except.ok stored =>
      { response := { status := 201, success := true,
                      message := some "Book created successfully",
                      data := some (Data.book created) },
        written := some stored }
    | Except.error e =>
      { response := { status := 500, success := false,
                      message := some "Failed to create book", error := some e },
        written := none }

/-- `books.findIndex(b => b.id === id)`; `none` stands for `-1`. -/
def findIndexById (books : List Book) (id : String) : Option Nat :=
  books.findIdx? (fun b => strictEq (getProp b "id") (JsValue.string id))

/-- The object literal assigned to `books[bookIndex]` by `PUT /api/books/:id`:
the spread of the current record followed by seven property definitions. -/
def updatedBook (current : Book) (body : JsObject) (env : Env) : Book :=
  let title := getProp body "title"
  let author := getProp body "author"
  let isbn := getProp body "isbn"
  let genre := getProp body "genre"
  let publishedYear := getProp body "publishedYear"
  let description := getProp body "description"
  setProp (setProp (setProp (setProp (setProp (setProp (setProp current
    "title" title)
    "author" author)
    "isbn" (isbn.or JsValue.null))
    "genre" (genre.or (getProp current "genre")))
    "publishedYear" (publishedYear.or (getProp current "publishedYear")))
    "description" (description.or (getProp current "description")))
    "updatedAt" (JsValue.string (env.clock 0))

/-- `PUT /api/books/:id`. -/
def putBook (id : String) (body : JsObject) (books : List Book) (env : Env) : Outcome :=
  match findIndexById books id with
  | none =>
    { response := { status := 404, success := false, message := some "Book not found" },
      written := none }
  | some bookIndex =>
    let current : Book := books.getD bookIndex []
    let title := getProp body "title"
    let author := getProp body "author"
    let isbn := getProp body "isbn"
    if !title.truthy || !author.truthy then
      { response := { status := 400, success := false,
                      message := some
                        "Title and author are required fields, please fill in the required fields" },
        written := none }
    else if isbn.truthy && !strictEq isbn (getProp current "isbn")
          && books.any (fun book => strictEq (getProp book "isbn") isbn) then
      { response := { status := 400, success := false,
                      message := some "Book with this ISBN already exists" },
        written := none }
    else
      let updated : Book := updatedBook current body env
      match writeBooks env (books.set bookIndex updated) with
      | Except.ok stored =>
        { response := { status := 200, success := true,
                        message := some "Book updated successfully",
                        data := some (Data.book updated) },
          written := some stored }
      | Except.error e =>
        { response := { status := 500, success := false,
                        message := some "Failed to update book", error := some e },
          written := none }

/-- `DELETE /api/books/:id`. -/
def deleteBook (id : String) (books : List Book) (env : Env) : Outcome :=
  match findIndexById books id with
  | none =>
    { response := { status := 404, success := false, message := some "Book not found" },
      written := none }
  | some bookIndex =>
    let deletedBook : Book := books.getD bookIndex []
    match writeBooks env (books.eraseIdx bookIndex) with
    | Except.ok stored =>
      { response := { status := 200, success := true,
                      message := some "Book deleted successfully",
                      data := some (Data.book deletedBook) },
        written := some stored }
    | Except.error e =>
      { response := { status := 500, success := false,
                      message := some "Failed to delete book", error := some e },
        written := none }

/-- `GET /api/books/:id`. -/
def getBook (id : String) (books : List Book) : Response :=
  match books.find? (fun b => strictEq (getProp b "id") (JsValue.string id)) with
  | none => { status := 404, success := false, message := some "Book not found" }
  | some book => { status := 200, success := true, data := some (Data.book book) }

/-! ## Search -/

/-- Whether the characters `q` occur in `l` as a run of consecutive characters. -/
def hasInfix (q : List Char) : List Char → Bool
  | [] => q.isEmpty
  | c :: cs => q.isPrefixOf (c :: cs) || hasInfix q cs

/-- The call `s.includes(q)`. -/
def includes (s q : String) : Bool :=
  hasInfix q.data s.data

/-- The expression `v.toLowerCase().includes(query)` for a property value `v`.
A value that is not a string has no `toLowerCase` method (and `undefined` and
`null` have no members at all), so the expression throws a TypeError; the text
of its message belongs to the engine and is represented by the error's name.
The case mapping `toLowerCase` of the runtime is a parameter. -/
def lowerIncludes (toLowerCase : String → String) (v : JsValue) (query : String) :
    Except String Bool :=
  match v with
  | JsValue.string s => Except.ok (includes (toLowerCase s) query)
  | _ => Except.error "TypeError"

/-- The filter callback of `GET /api/books/search/:query`: title, then author,
then genre, each evaluated only when the ones before it did not match. -/
def matchesQuery (toLowerCase : String → String) (query : String) (book : Book) :
    Except String Bool :=
  match lowerIncludes toLowerCase (getProp book "title") query with
  | Except.error e => Except.error e
  | Except.ok true => Except.ok true
  | Except.ok false =>
    match lowerIncludes toLowerCase (getProp book "author") query with
    | Except.error e => Except.error e
    | Except.ok true => Except.ok true
    | Except.ok false => lowerIncludes toLowerCase (getProp book "genre") query

/-- The call `books.filter(callback)`: the records the callback accepts, in
order; an exception of the callback ends the call. -/
def filterBooks (toLowerCase : String → String) (query : String) :
    List Book → Except String (List Book)
  | [] => Except.ok []
  | book :: rest =>
    match matchesQuery toLowerCase query book with
    | Except.error e => Except.error e
    | Except.ok keep =>
      match filterBooks toLowerCase query rest with
      | Except.error e => Except.error e
      | Except.ok kept => Except.ok (if keep then book :: kept else kept)

/-- `GET /api/books/search/:query`. -/
def searchBooks (toLowerCase : String → String) (query : String) (books : List Book) :
    Response :=
  match filterBooks toLowerCase (toLowerCase query) books with
  | Except.ok filteredBooks =>
    { status := 200, success := true, count := some filteredBooks.length,
      query := some query, data := some (Data.books filteredBooks) }
  | Except.error e =>
    { status := 500, success := false, message := some "Failed to search books",
      error := some e }

/-! ## The data file -/

/-- An element of a JSON array: a scalar or an object. -/
inductive JsonItem where
  | scalar (v : JsValue)
  | object (o : JsObject)
  deriving DecidableEq, Repr

/-- A value that `JSON.parse` returns: a scalar, an object, or an array. -/
inductive Json where
  | scalar (v : JsValue)
  | object (o : JsObject)
  | array (items : List JsonItem)
  deriving DecidableEq, Repr

/-- The state of `DATA_FILE` as `readBooks` meets it.  The text of a file that
`JSON.parse` accepts is represented by the value `JSON.parse` returns for it. -/
inductive DataFile where
  /-- The file cannot be read: `fs.readFile` rejects. -/
  | unreadable
  /-- The file holds a text for which `JSON.parse` throws. -/
  | unparsable (text : String)
  /-- The file holds a text for which `JSON.parse` returns `value`. -/
  | document (value : Json)
  deriving DecidableEq, Repr

/-- `readBooks()`: the value parsed from the file, and the empty array when
reading or parsing throws. -/
def readBooks (file : DataFile) : Json :=
  match file with
  | DataFile.unreadable => Json.array []
  | DataFile.unparsable _ => Json.array []
  | DataFile.document value => value

/-- The value `JSON.parse` returns for the text `JSON.stringify(books, null, 2)`:
the array of the records, each with the properties whose value is not
`undefined` (`JSON.stringify` leaves a property out when the value read for its
name is `undefined`). -/
def stringifyBooks (books : List Book) : Json :=
  Json.array (books.map (fun b =>
    JsonItem.object (b.filter (fun p => decide (getProp b p.1 ≠ JsValue.undefined)))))

/-- The state of `DATA_FILE` after a call `writeBooks(books)` that found it in
state `file`.  A call that completes leaves the serialisation of `books` in
place of the prior contents.  When `fs.writeFile` rejects the contents are not
determined by the program; the prior state stands for them. -/
def fileAfterWrite (env : Env) (books : List Book) (file : DataFile) : DataFile :=
  match writeBooks env books with
  | Except.ok stored => DataFile.document (stringifyBooks stored)
  | Except.error _ => file

/-! ## Specification vocabulary -/

/-- An isbn value that is present: neither `null` nor absent. -/
def isbnPresent (v : JsValue) : Prop :=
  v ≠ JsValue.null ∧ v ≠ JsValue.undefined

instance decidableIsbnPresent (v : JsValue) : Decidable (isbnPresent v) :=
  inferInstanceAs (Decidable (v ≠ JsValue.null ∧ v ≠ JsValue.undefined))

/-- No two records of the collection share a present isbn: for records at two
different positions, the isbn of the one, when present, is not the isbn of the
other. -/
def IsbnUnique (books : List Book) : Prop :=
  books.Pairwise (fun a b => isbnPresent (getProp a "isbn") → getProp a "isbn" ≠ getProp b "isbn")

instance decidableIsbnUnique (books : List Book) : Decidable (IsbnUnique books) :=
  inferInstanceAs (Decidable (List.Pairwise _ books))

/-- The records of an array all of whose elements are objects. -/
def itemsToBooks : List JsonItem → Option (List Book)
  | [] => some []
  | JsonItem.object o :: rest => (itemsToBooks rest).map (fun books => o :: books)
  | JsonItem.scalar _ :: _ => none

/-- The Collection a parsed value is: the records of an array of objects;
`none` for every other value. -/
def collectionOf : Json → Option (List Book)
  | Json.array items => itemsToBooks items
  | Json.object _ => none
  | Json.scalar _ => none

/-- Whether a value is a string. -/
def isString : JsValue → Bool
  | JsValue.string _ => true
  | _ => false

/-- A record whose title, author and genre are text, as in the data model. -/
def HasTextFields (book : Book) : Prop :=
  isString (getProp book "title") = true ∧ isString (getProp book "author") = true ∧
    isString (getProp book "genre") = true

instance decidableHasTextFields (book : Book) : Decidable (HasTextFields book) :=
  inferInstanceAs (Decidable (_ ∧ _ ∧ _))

/-- In the words of the specification: the lower-cased query is a substring of
the lower-cased form of the value `v`, a text. -/
def fieldContains (toLowerCase : String → String) (query : String) (v : JsValue) : Prop :=
  match v with
  | JsValue.string s => (toLowerCase query).data <:+: (toLowerCase s).data
  | _ => False

instance decidableFieldContains (toLowerCase : String → String) (query : String)
    (v : JsValue) : Decidable (fieldContains toLowerCase query v) :=
  match v with
  | JsValue.string s =>
    inferInstanceAs (Decidable ((toLowerCase query).data <:+: (toLowerCase s).data))
  | JsValue.undefined => isFalse (fun h => h)
  | JsValue.null => isFalse (fun h => h)
  | JsValue.bool _ => isFalse (fun h => h)
  | JsValue.number _ => isFalse (fun h => h)

/-- In the words of the specification: the record matches the query on its
title, or its author, or its genre. -/
def SpecMatches (toLowerCase : String → String) (query : String) (book : Book) : Prop :=
  fieldContains toLowerCase query (getProp book "title") ∨
  fieldContains toLowerCase query (getProp book "author") ∨
  fieldContains toLowerCase query (getProp book "genre")

instance decidableSpecMatches (toLowerCase : String → String) (query : String)
    (book : Book) : Decidable (SpecMatches toLowerCase query book) :=
  inferInstanceAs (Decidable (_ ∨ _ ∨ _))

/-- The order of two timestamps of the ISO-8601 format of `toISOString`, which
is their order as strings; a value that is not a string is not ordered. -/
def timestampLe (a b : JsValue) : Prop :=
  match a, b with
  | JsValue.string s, JsValue.string t => s ≤ t
  | _, _ => False

/-- The ids of the records of the collection are pairwise distinct. -/
def IdUnique (books : List Book) : Prop :=
  books.Pairwise (fun a b => getProp a "id" ≠ getProp b "id")

instance decidableIdUnique (books : List Book) : Decidable (IdUnique books) :=
  inferInstanceAs (Decidable (List.Pairwise _ books))

/-! ## Sample data -/

/-- A clock whose successive readings differ by one millisecond. -/
def tickingClock (n : Nat) : String :=
  if n = 0 then "2024-05-01T10:00:00.000Z" else "2024-05-01T10:00:00.001Z"

/-- An environment in which the file write completes. -/
def sampleEnv : Env :=
  { uuid := "6f1c", clock := tickingClock, writeError := none }

/-- The stored record of the specification's scenario. -/
def dune : Book :=
  [ ("id", JsValue.string "b1"),
    ("title", JsValue.string "Dune"),
    ("author", JsValue.string "Herbert"),
    ("isbn", JsValue.string "111"),
    ("genre", JsValue.string "Fiction"),
    ("publishedYear", JsValue.number 1965),
    ("description", JsValue.string "Arrakis"),
    ("createdAt", JsValue.string "2024-01-01T00:00:00.000Z"),
    ("updatedAt", JsValue.string "2024-01-01T00:00:00.000Z") ]

/-- A second stored record, without isbn. -/
def emma : Book :=
  [ ("id", JsValue.string "b2"),
    ("title", JsValue.string "Emma"),
    ("author", JsValue.string "Austen"),
    ("isbn", JsValue.null),
    ("genre", JsValue.string "Novel"),
    ("publishedYear", JsValue.number 1815),
    ("description", JsValue.string ""),
    ("createdAt", JsValue.string "2024-01-02T00:00:00.000Z"),
    ("updatedAt", JsValue.string "2024-01-02T00:00:00.000Z") ]

/-- The body of the specification's conflict scenario. -/
def fooBody : JsObject :=
  [ ("title", JsValue.string "Foo"), ("author", JsValue.string "Bar"),
    ("isbn", JsValue.string "111") ]

/-- A body that supplies only a title and an author. -/
def minimalBody : JsObject :=
  [ ("title", JsValue.string "T"), ("author", JsValue.string "A") ]

/-- A body that supplies an empty genre and the year 0. -/
def yearZeroBody : JsObject :=
  [ ("title", JsValue.string "T"), ("author", JsValue.string "A"),
    ("genre", JsValue.string ""), ("publishedYear", JsValue.number 0) ]

/-- A body that supplies every optional field. -/
def fullBody : JsObject :=
  [ ("title", JsValue.string "New Test Book"), ("author", JsValue.string "New Test Author"),
    ("isbn", JsValue.string "978-0-111111-11-1"), ("genre", JsValue.string "Science Fiction"),
    ("publishedYear", JsValue.number 2023),
    ("description", JsValue.string "A brand new test book") ]

/-- An update body that carries `id` and `createdAt` members of its own, an
empty genre and the year 0. -/
def intrusiveBody : JsObject :=
  [ ("id", JsValue.string "hijacked"), ("createdAt", JsValue.string "1999-01-01T00:00:00.000Z"),
    ("title", JsValue.string "Dune Messiah"), ("author", JsValue.string "Herbert"),
    ("isbn", JsValue.string "111"), ("genre", JsValue.string ""),
    ("publishedYear", JsValue.number 0), ("description", JsValue.string "Sequel") ]

/-- A case mapping for the letters A to Z, other characters unchanged. -/
def asciiLower (s : String) : String :=
  String.mk (s.data.map Char.toLower)

/-- An environment whose clock reads a time before the timestamps of the sample
records, the file write completing. -/
def earlyEnv : Env :=
  { uuid := "6f1d", clock := fun _ => "2023-12-31T23:59:59.999Z", writeError := none }

/-- An environment in which `fs.writeFile` rejects for lack of permission. -/
def deniedEnv : Env :=
  { uuid := "6f1e", clock := tickingClock, writeError := some "EACCES: permission denied" }

/-- An environment in which `fs.writeFile` rejects for lack of space. -/
def fullDiskEnv : Env :=
  { uuid := "6f1e", clock := tickingClock, writeError := some "ENOSPC: no space left on device" }

/-- A third stored record that has the id of the first. -/
def duneAgain : Book :=
  [ ("id", JsValue.string "b1"),
    ("title", JsValue.string "Dune (reissue)"),
    ("author", JsValue.string "Herbert"),
    ("isbn", JsValue.null),
    ("genre", JsValue.string "Fiction"),
    ("publishedYear", JsValue.number 1984),
    ("description", JsValue.string ""),
    ("createdAt", JsValue.string "2024-01-03T00:00:00.000Z"),
    ("updatedAt", JsValue.string "2024-01-03T00:00:00.000Z") ]

/-- A stored record with quotation marks and an apostrophe in its description. -/
def quoted : Book :=
  [ ("id", JsValue.string "b3"),
    ("title", JsValue.string "Complex Book 2"),
    ("author", JsValue.string "Author Two"),
    ("isbn", JsValue.string "978-0-987654-32-1"),
    ("genre", JsValue.string "Science Fiction"),
    ("publishedYear", JsValue.number 2023),
    ("description", JsValue.string "quotes \"test\" and apostrophes\x27s"),
    ("createdAt", JsValue.string "2024-01-02T00:00:00.000Z"),
    ("updatedAt", JsValue.string "2024-01-03T00:00:00.000Z") ]

/-- The first sample record with title, author and genre in another letter case. -/
def duneUpper : Book :=
  [ ("id", JsValue.string "b1"),
    ("title", JsValue.string "DUNE"),
    ("author", JsValue.string "HERBERT"),
    ("isbn", JsValue.string "111"),
    ("genre", JsValue.string "fiction"),
    ("publishedYear", JsValue.number 1965),
    ("description", JsValue.string "Arrakis"),
    ("createdAt", JsValue.string "2024-01-01T00:00:00.000Z"),
    ("updatedAt", JsValue.string "2024-01-01T00:00:00.000Z") ]

/-- A stored record without genre, as in the fixtures of the unit tests. -/
def noGenre : Book :=
  [ ("id", JsValue.string "1"),
    ("title", JsValue.string "Test Book"),
    ("author", JsValue.string "Test Author") ]

/-- A stored record whose title is null. -/
def nullTitle : Book :=
  [ ("id", JsValue.string "2"),
    ("title", JsValue.null),
    ("author", JsValue.string "Test Author"),
    ("genre", JsValue.string "Fiction") ]

/-- Whether a record has the given id: the callback `b => b.id === id`. -/
def hasId (id : String) (b : Book) : Bool :=
  strictEq (getProp b "id") (JsValue.string id)

/-- The response of a rejected request. -/
def rejected (status : Nat) (message : String) : Outcome :=
  { response := { status := status, success := false, message := some message },
    written := none }

/-! # Properties -/

/-! ## Objects -/

theorem getProp_setProp_same (o : JsObject) (k : String) (v : JsValue) :
    getProp (setProp o k v) k = v := by
  induction o with
  | nil => simp [setProp, getProp]
  | cons p rest ih =>
    obtain ⟨k0, v0⟩ := p
    by_cases h : k0 = k
    · simp [setProp, getProp, h]
    · simp [setProp, getProp, h, ih]

theorem getProp_setProp_ne (o : JsObject) (k j : String) (v : JsValue) (h : k ≠ j) :
    getProp (setProp o k v) j = getProp o j := by
  induction o with
  | nil => simp [setProp, getProp, h]
  | cons p rest ih =>
    obtain ⟨k0, v0⟩ := p
    by_cases h0 : k0 = k
    · subst h0
      simp [setProp, getProp, h]
    · simp [setProp, getProp, h0, ih]

theorem truthy_or_left (a b : JsValue) (h : a.truthy = true) : a.or b = a := by
  simp [JsValue.or, h]

theorem truthy_or_right (a b : JsValue) (h : a.truthy = false) : a.or b = b := by
  simp [JsValue.or, h]

theorem strictEq_iff (a b : JsValue) : strictEq a b = true ↔ a = b := by
  simp [strictEq]

/-! ## The four ways `POST /api/books` ends -/

theorem postBooks_cases (body : JsObject) (books : List Book) (env : Env) :
    (((getProp body "title").truthy = false ∨ (getProp body "author").truthy = false) ∧
      postBooks body books env = rejected 400 "Title and author are required fields") ∨
    ((getProp body "title").truthy = true ∧ (getProp body "author").truthy = true ∧
      (getProp body "isbn").truthy = true ∧
      (∃ book ∈ books, getProp book "isbn" = getProp body "isbn") ∧
      postBooks body books env = rejected 400 "Book with this ISBN already exists") ∨
    ((getProp body "title").truthy = true ∧ (getProp body "author").truthy = true ∧
      ((getProp body "isbn").truthy = true → ∀ book ∈ books, getProp book "isbn" ≠ getProp body "isbn") ∧
      ((env.writeError = none ∧
        postBooks body books env =
          { response := { status := 201, success := true,
                          message := some "Book created successfully",
                          data := some (Data.book (newBook body env)) },
            written := some (books ++ [newBook body env]) }) ∨
       ((∃ cause, env.writeError = some cause) ∧
        postBooks body books env =
          { response := { status := 500, success := false,
                          message := some "Failed to create book",
                          error := some "Failed to write to database" },
            written := none }))) := by
  by_cases hv : (getProp body "title").truthy = true ∧ (getProp body "author").truthy = true
  · obtain ⟨ht, ha⟩ := hv
    by_cases hc : (getProp body "isbn").truthy = true ∧
        ∃ book ∈ books, getProp book "isbn" = getProp body "isbn"
    · right; left
      obtain ⟨hi, hex⟩ := hc
      refine ⟨ht, ha, hi, hex, ?_⟩
      have hany : books.any (fun book => strictEq (getProp book "isbn") (getProp body "isbn")) = true := by
        simpa [strictEq] using hex
      simp [postBooks, ht, ha, hi, hany, rejected]
    · right; right
      have hno : (getProp body "isbn").truthy = true →
          ∀ book ∈ books, getProp book "isbn" ≠ getProp body "isbn" := by
        intro hi book hb heq
        exact hc ⟨hi, book, hb, heq⟩
      refine ⟨ht, ha, hno, ?_⟩
      have hif : ((getProp body "isbn").truthy &&
          books.any (fun book => strictEq (getProp book "isbn") (getProp body "isbn"))) = false := by
        cases hi : (getProp body "isbn").truthy with
        | false => simp
        | true =>
          simp only [Bool.true_and]
          rw [Bool.eq_false_iff]
          intro hany
          simp only [List.any_eq_true, strictEq_iff] at hany
          obtain ⟨book, hb, heq⟩ := hany
          exact hno hi book hb heq
      cases hw : env.writeError with
      | none =>
        left
        refine ⟨rfl, ?_⟩
        simp [postBooks, ht, ha, hif, writeBooks, hw]
      | some cause =>
        right
        refine ⟨⟨cause, rfl⟩, ?_⟩
        simp [postBooks, ht, ha, hif, writeBooks, hw]
  · left
    have hv2 : (getProp body "title").truthy = false ∨ (getProp body "author").truthy = false := by
      cases h1 : (getProp body "title").truthy <;> cases h2 : (getProp body "author").truthy <;> simp_all
    refine ⟨hv2, ?_⟩
    rcases hv2 with h | h <;> simp [postBooks, h, rejected]

/-! ## Lookup by id -/

theorem findIndexById_none_iff (books : List Book) (id : String) :
    findIndexById books id = none ↔ ∀ b ∈ books, getProp b "id" ≠ JsValue.string id := by
  simp [findIndexById, strictEq]

theorem findIndexById_some (books : List Book) (id : String) (i : Nat)
    (h : findIndexById books id = some i) :
    ∃ current, books[i]? = some current ∧ books.getD i [] = current ∧
      getProp current "id" = JsValue.string id ∧
      ∀ j b, j < i → books[j]? = some b → getProp b "id" ≠ JsValue.string id := by
  unfold findIndexById at h
  rw [List.findIdx?_eq_some_iff_getElem] at h
  obtain ⟨hlt, hp, hmin⟩ := h
  refine ⟨books[i], ?_, ?_, ?_, ?_⟩
  · simp [hlt]
  · simp [hlt]
  · simpa [strictEq] using hp
  · intro j b hj hb
    have hjl : j < books.length := Nat.lt_trans hj hlt
    have := hmin j hj
    rw [List.getElem?_eq_getElem hjl] at hb
    cases hb
    simpa [strictEq] using this

theorem findIndexById_isSome_iff (books : List Book) (id : String) :
    (∃ i, findIndexById books id = some i) ↔ ∃ b ∈ books, getProp b "id" = JsValue.string id := by
  constructor
  · rintro ⟨i, h⟩
    obtain ⟨cur, hc, -, hid, -⟩ := findIndexById_some books id i h
    exact ⟨cur, List.getElem?_mem hc, hid⟩
  · rintro ⟨b, hb, hid⟩
    cases h : findIndexById books id with
    | some i => exact ⟨i, rfl⟩
    | none =>
      rw [findIndexById_none_iff] at h
      exact absurd hid (h b hb)

/-! ## The ways `PUT /api/books/:id` ends -/

theorem putBook_not_found (id : String) (body : JsObject) (books : List Book) (env : Env)
    (h : findIndexById books id = none) :
    putBook id body books env = rejected 404 "Book not found" := by
  simp [putBook, h, rejected]

theorem putBook_cases (id : String) (body : JsObject) (books : List Book) (env : Env)
    (i : Nat) (current : Book)
    (hidx : findIndexById books id = some i) (hcur : books[i]? = some current) :
    (((getProp body "title").truthy = false ∨ (getProp body "author").truthy = false) ∧
      putBook id body books env = rejected 400
        "Title and author are required fields, please fill in the required fields") ∨
    ((getProp body "title").truthy = true ∧ (getProp body "author").truthy = true ∧
      (getProp body "isbn").truthy = true ∧
      getProp body "isbn" ≠ getProp current "isbn" ∧
      (∃ book ∈ books, getProp book "isbn" = getProp body "isbn") ∧
      putBook id body books env = rejected 400 "Book with this ISBN already exists") ∨
    ((getProp body "title").truthy = true ∧ (getProp body "author").truthy = true ∧
      ((getProp body "isbn").truthy = true → getProp body "isbn" ≠ getProp current "isbn" →
        ∀ book ∈ books, getProp book "isbn" ≠ getProp body "isbn") ∧
      ((env.writeError = none ∧
        putBook id body books env =
          { response := { status := 200, success := true,
                          message := some "Book updated successfully",
                          data := some (Data.book (updatedBook current body env)) },
            written := some (books.set i (updatedBook current body env)) }) ∨
       ((∃ cause, env.writeError = some cause) ∧
        putBook id body books env =
          { response := { status := 500, success := false,
                          message := some "Failed to update book",
                          error := some "Failed to write to database" },
            written := none }))) := by
  have hget : books.getD i [] = current := by
    simp [hcur]
  by_cases hv : (getProp body "title").truthy = true ∧ (getProp body "author").truthy = true
  · obtain ⟨ht, ha⟩ := hv
    by_cases hc : (getProp body "isbn").truthy = true ∧
        getProp body "isbn" ≠ getProp current "isbn" ∧
        ∃ book ∈ books, getProp book "isbn" = getProp body "isbn"
    · right; left
      obtain ⟨hi, hne, hex⟩ := hc
      refine ⟨ht, ha, hi, hne, hex, ?_⟩
      have hany : books.any (fun book => strictEq (getProp book "isbn") (getProp body "isbn")) = true := by
        simpa [strictEq] using hex
      have hs : strictEq (getProp body "isbn") (getProp current "isbn") = false := by
        simpa [strictEq] using hne
      simp only [putBook, hidx, hget]
      simp [ht, ha, hi, hany, hs, rejected]
    · right; right
      have hno : (getProp body "isbn").truthy = true →
          getProp body "isbn" ≠ getProp current "isbn" →
          ∀ book ∈ books, getProp book "isbn" ≠ getProp body "isbn" := by
        intro hi hne book hb heq
        exact hc ⟨hi, hne, book, hb, heq⟩
      refine ⟨ht, ha, hno, ?_⟩
      have hif : ((getProp body "isbn").truthy &&
          !strictEq (getProp body "isbn") (getProp current "isbn") &&
          books.any (fun book => strictEq (getProp book "isbn") (getProp body "isbn"))) = false := by
        rw [Bool.eq_false_iff]
        intro hall
        simp only [Bool.and_eq_true, Bool.not_eq_true', List.any_eq_true, strictEq_iff] at hall
        obtain ⟨⟨hi, hs⟩, book, hb, heq⟩ := hall
        have hne : getProp body "isbn" ≠ getProp current "isbn" := by
          intro he
          rw [← strictEq_iff] at he
          rw [he] at hs
          cases hs
        exact hno hi hne book hb heq
      cases hw : env.writeError with
      | none =>
        left
        refine ⟨rfl, ?_⟩
        simp only [putBook, hidx, hget]
        simp [ht, ha, hif, writeBooks, hw]
      | some cause =>
        right
        refine ⟨⟨cause, rfl⟩, ?_⟩
        simp only [putBook, hidx, hget]
        simp [ht, ha, hif, writeBooks, hw]
  · left
    have hv2 : (getProp body "title").truthy = false ∨ (getProp body "author").truthy = false := by
      cases h1 : (getProp body "title").truthy <;> cases h2 : (getProp body "author").truthy <;> simp_all
    refine ⟨hv2, ?_⟩
    simp only [putBook, hidx, hget]
    rcases hv2 with h | h <;> simp [h, rejected]

/-! ## The ways `DELETE /api/books/:id` ends -/

theorem deleteBook_not_found (id : String) (books : List Book) (env : Env)
    (h : findIndexById books id = none) :
    deleteBook id books env = rejected 404 "Book not found" := by
  simp [deleteBook, h, rejected]

theorem deleteBook_cases (id : String) (books : List Book) (env : Env)
    (i : Nat) (current : Book)
    (hidx : findIndexById books id = some i) (hcur : books[i]? = some current) :
    (env.writeError = none ∧
      deleteBook id books env =
        { response := { status := 200, success := true,
                        message := some "Book deleted successfully",
                        data := some (Data.book current) },
          written := some (books.eraseIdx i) }) ∨
    ((∃ cause, env.writeError = some cause) ∧
      deleteBook id books env =
        { response := { status := 500, success := false,
                        message := some "Failed to delete book",
                        error := some "Failed to write to database" },
          written := none }) := by
  have hget : books.getD i [] = current := by
    simp [hcur]
  cases hw : env.writeError with
  | none =>
    left
    refine ⟨rfl, ?_⟩
    simp only [deleteBook, hidx, hget]
    simp [writeBooks, hw]
  | some cause =>
    right
    refine ⟨⟨cause, rfl⟩, ?_⟩
    simp only [deleteBook, hidx, hget]
    simp [writeBooks, hw]

/-! ## ISBN uniqueness -/

theorem getProp_newBook_isbn (body : JsObject) (env : Env) :
    getProp (newBook body env) "isbn" = (getProp body "isbn").or JsValue.null := by
  simp [newBook, getProp]

theorem getProp_updatedBook_isbn (current : Book) (body : JsObject) (env : Env) :
    getProp (updatedBook current body env) "isbn" = (getProp body "isbn").or JsValue.null := by
  unfold updatedBook
  simp only []
  rw [getProp_setProp_ne _ _ _ _ (by decide), getProp_setProp_ne _ _ _ _ (by decide),
    getProp_setProp_ne _ _ _ _ (by decide), getProp_setProp_ne _ _ _ _ (by decide),
    getProp_setProp_same]

theorem isbnUnique_append (books : List Book) (added : Book) (h : IsbnUnique books)
    (hnew : getProp added "isbn" = JsValue.null ∨
      ∀ b ∈ books, getProp b "isbn" ≠ getProp added "isbn") :
    IsbnUnique (books ++ [added]) := by
  unfold IsbnUnique at h ⊢
  rw [List.pairwise_append]
  refine ⟨h, List.pairwise_singleton _ _, ?_⟩
  intro a ha b hb hp
  rw [List.mem_singleton] at hb
  subst hb
  rcases hnew with hn | hn
  · rw [hn]
    exact hp.1
  · exact hn a ha

theorem isbnUnique_eraseIdx (books : List Book) (i : Nat) (h : IsbnUnique books) :
    IsbnUnique (books.eraseIdx i) :=
  List.Pairwise.sublist (List.eraseIdx_sublist books i) h

theorem isbnUnique_set (books : List Book) (i : Nat) (current replacement : Book)
    (h : IsbnUnique books) (hcur : books[i]? = some current)
    (hnew : getProp replacement "isbn" = getProp current "isbn" ∨
      getProp replacement "isbn" = JsValue.null ∨
      ∀ b ∈ books, getProp b "isbn" ≠ getProp replacement "isbn") :
    IsbnUnique (books.set i replacement) := by
  unfold IsbnUnique at h ⊢
  rw [List.pairwise_iff_getElem] at h ⊢
  obtain ⟨hi, hci⟩ := List.getElem?_eq_some.mp hcur
  intro a b ha hb hab
  rw [List.length_set] at ha hb
  rw [List.getElem_set, List.getElem_set]
  by_cases hia : i = a
  · subst hia
    have hib : ¬ i = b := Nat.ne_of_lt hab
    simp only [if_true, hib, if_false]
    intro hp
    rcases hnew with hn | hn | hn
    · rw [hn, ← hci]
      rw [hn, ← hci] at hp
      exact h i b hi hb hab hp
    · exact absurd hn hp.1
    · exact fun he => hn books[b] (List.getElem_mem _) he.symm
  · by_cases hib : i = b
    · subst hib
      simp only [hia, if_false, if_true]
      intro hp
      rcases hnew with hn | hn | hn
      · rw [hn, ← hci]
        exact h a i ha hi hab hp
      · rw [hn]
        exact hp.1
      · exact hn books[a] (List.getElem_mem _)
    · simp only [hia, hib, if_false]
      exact h a b ha hb hab

/-! ## Successful requests -/

theorem postBooks_success (body : JsObject) (books : List Book) (env : Env)
    (hs : (postBooks body books env).response.success = true) :
    (getProp body "title").truthy = true ∧ (getProp body "author").truthy = true ∧
    ((getProp body "isbn").truthy = true →
      ∀ book ∈ books, getProp book "isbn" ≠ getProp body "isbn") ∧
    env.writeError = none ∧
    postBooks body books env =
      { response := { status := 201, success := true,
                      message := some "Book created successfully",
                      data := some (Data.book (newBook body env)) },
        written := some (books ++ [newBook body env]) } := by
  rcases postBooks_cases body books env with
    ⟨-, he⟩ | ⟨-, -, -, -, he⟩ | ⟨ht, ha, hno, ⟨hw, he⟩ | ⟨-, he⟩⟩
  · rw [he] at hs; simp [rejected] at hs
  · rw [he] at hs; simp [rejected] at hs
  · exact ⟨ht, ha, hno, hw, he⟩
  · rw [he] at hs; simp at hs

theorem putBook_success (id : String) (body : JsObject) (books : List Book) (env : Env)
    (hs : (putBook id body books env).response.success = true) :
    ∃ i current, findIndexById books id = some i ∧ books[i]? = some current ∧
      (getProp body "title").truthy = true ∧ (getProp body "author").truthy = true ∧
      env.writeError = none ∧
      putBook id body books env =
        { response := { status := 200, success := true,
                        message := some "Book updated successfully",
                        data := some (Data.book (updatedBook current body env)) },
          written := some (books.set i (updatedBook current body env)) } := by
  cases hidx : findIndexById books id with
  | none =>
    rw [putBook_not_found id body books env hidx] at hs
    simp [rejected] at hs
  | some i =>
    obtain ⟨current, hcur, -, -, -⟩ := findIndexById_some books id i hidx
    rcases putBook_cases id body books env i current hidx hcur with
      ⟨-, he⟩ | ⟨-, -, -, -, -, he⟩ | ⟨ht, ha, -, ⟨hw, he⟩ | ⟨-, he⟩⟩
    · rw [he] at hs; simp [rejected] at hs
    · rw [he] at hs; simp [rejected] at hs
    · exact ⟨i, current, rfl, hcur, ht, ha, hw, he⟩
    · rw [he] at hs; simp at hs

/-! ## Fields of the record an update builds -/

theorem getProp_updatedBook_genre (current : Book) (body : JsObject) (env : Env) :
    getProp (updatedBook current body env) "genre" =
      (getProp body "genre").or (getProp current "genre") := by
  unfold updatedBook
  simp only []
  rw [getProp_setProp_ne _ _ _ _ (by decide), getProp_setProp_ne _ _ _ _ (by decide),
    getProp_setProp_ne _ _ _ _ (by decide), getProp_setProp_same]

theorem getProp_updatedBook_publishedYear (current : Book) (body : JsObject) (env : Env) :
    getProp (updatedBook current body env) "publishedYear" =
      (getProp body "publishedYear").or (getProp current "publishedYear") := by
  unfold updatedBook
  simp only []
  rw [getProp_setProp_ne _ _ _ _ (by decide), getProp_setProp_ne _ _ _ _ (by decide),
    getProp_setProp_same]

theorem getProp_updatedBook_description (current : Book) (body : JsObject) (env : Env) :
    getProp (updatedBook current body env) "description" =
      (getProp body "description").or (getProp current "description") := by
  unfold updatedBook
  simp only []
  rw [getProp_setProp_ne _ _ _ _ (by decide), getProp_setProp_same]

/-- A property that the update does not define keeps the value of the spread. -/
theorem getProp_updatedBook_other (current : Book) (body : JsObject) (env : Env) (k : String)
    (h1 : "title" ≠ k) (h2 : "author" ≠ k) (h3 : "isbn" ≠ k) (h4 : "genre" ≠ k)
    (h5 : "publishedYear" ≠ k) (h6 : "description" ≠ k) (h7 : "updatedAt" ≠ k) :
    getProp (updatedBook current body env) k = getProp current k := by
  unfold updatedBook
  simp only []
  rw [getProp_setProp_ne _ _ _ _ h7, getProp_setProp_ne _ _ _ _ h6,
    getProp_setProp_ne _ _ _ _ h5, getProp_setProp_ne _ _ _ _ h4,
    getProp_setProp_ne _ _ _ _ h3, getProp_setProp_ne _ _ _ _ h2,
    getProp_setProp_ne _ _ _ _ h1]

/-! ## Fields of the record a create builds -/

theorem getProp_newBook (body : JsObject) (env : Env) :
    getProp (newBook body env) "id" = JsValue.string env.uuid ∧
    getProp (newBook body env) "title" = getProp body "title" ∧
    getProp (newBook body env) "author" = getProp body "author" ∧
    getProp (newBook body env) "genre" =
      (getProp body "genre").or (JsValue.string "Unknown") ∧
    getProp (newBook body env) "publishedYear" =
      (getProp body "publishedYear").or JsValue.null ∧
    getProp (newBook body env) "description" =
      (getProp body "description").or (JsValue.string "") ∧
    getProp (newBook body env) "createdAt" = JsValue.string (env.clock 0) ∧
    getProp (newBook body env) "updatedAt" = JsValue.string (env.clock 1) := by
  simp [newBook, getProp]

theorem postBooks_accepts (body : JsObject) (books : List Book) (env : Env)
    (ht : (getProp body "title").truthy = true) (ha : (getProp body "author").truthy = true)
    (hfresh : (getProp body "isbn").truthy = true →
      ∀ book ∈ books, getProp book "isbn" ≠ getProp body "isbn")
    (hw : env.writeError = none) :
    postBooks body books env =
      { response := { status := 201, success := true,
                      message := some "Book created successfully",
                      data := some (Data.book (newBook body env)) },
        written := some (books ++ [newBook body env]) } := by
  rcases postBooks_cases body books env with
    ⟨hv, -⟩ | ⟨-, -, hi, ⟨book, hb, heq⟩, -⟩ | ⟨-, -, -, ⟨-, he⟩ | ⟨⟨cause, hc⟩, -⟩⟩
  · rcases hv with h | h
    · rw [ht] at h; cases h
    · rw [ha] at h; cases h
  · exact absurd heq (hfresh hi book hb)
  · exact he
  · rw [hw] at hc; cases hc

/-! ## More fields of the record an update builds -/

theorem getProp_updatedBook_title (current : Book) (body : JsObject) (env : Env) :
    getProp (updatedBook current body env) "title" = getProp body "title" := by
  unfold updatedBook
  simp only []
  rw [getProp_setProp_ne _ _ _ _ (by decide), getProp_setProp_ne _ _ _ _ (by decide),
    getProp_setProp_ne _ _ _ _ (by decide), getProp_setProp_ne _ _ _ _ (by decide),
    getProp_setProp_ne _ _ _ _ (by decide), getProp_setProp_ne _ _ _ _ (by decide),
    getProp_setProp_same]

theorem getProp_updatedBook_author (current : Book) (body : JsObject) (env : Env) :
    getProp (updatedBook current body env) "author" = getProp body "author" := by
  unfold updatedBook
  simp only []
  rw [getProp_setProp_ne _ _ _ _ (by decide), getProp_setProp_ne _ _ _ _ (by decide),
    getProp_setProp_ne _ _ _ _ (by decide), getProp_setProp_ne _ _ _ _ (by decide),
    getProp_setProp_ne _ _ _ _ (by decide), getProp_setProp_same]

theorem getProp_updatedBook_updatedAt (current : Book) (body : JsObject) (env : Env) :
    getProp (updatedBook current body env) "updatedAt" = JsValue.string (env.clock 0) := by
  unfold updatedBook
  simp only []
  rw [getProp_setProp_same]

/-! ## What a delete removes -/

/-- The collection splits at the index `findIndex` returns: the records before
it do not have the id, the record at it does. -/
theorem findIndexById_split (books : List Book) (id : String) (i : Nat)
    (hidx : findIndexById books id = some i) :
    ∃ front removed back,
      books[i]? = some removed ∧
      books = front ++ removed :: back ∧ books.eraseIdx i = front ++ back ∧
      front.length = i ∧
      (∀ b ∈ front, getProp b "id" ≠ JsValue.string id) ∧
      getProp removed "id" = JsValue.string id := by
  obtain ⟨removed, hcur, -, hid, hmin⟩ := findIndexById_some books id i hidx
  obtain ⟨hlt, hget⟩ := List.getElem?_eq_some.mp hcur
  refine ⟨books.take i, removed, books.drop (i + 1), hcur, ?_, ?_, ?_, ?_, hid⟩
  · rw [← hget, ← List.drop_eq_getElem_cons hlt, List.take_append_drop]
  · exact List.eraseIdx_eq_take_drop_succ books i
  · rw [List.length_take]
    exact Nat.min_eq_left (Nat.le_of_lt hlt)
  · intro b hb
    obtain ⟨j, hj⟩ := List.mem_iff_getElem?.mp hb
    rw [List.getElem?_take] at hj
    by_cases hji : j < i
    · rw [if_pos hji] at hj
      exact hmin j b hji hj
    · rw [if_neg hji] at hj
      cases hj

theorem deleteBook_success (id : String) (books : List Book) (env : Env)
    (hs : (deleteBook id books env).response.success = true) :
    ∃ i removed, findIndexById books id = some i ∧ books[i]? = some removed ∧
      env.writeError = none ∧
      deleteBook id books env =
        { response := { status := 200, success := true,
                        message := some "Book deleted successfully",
                        data := some (Data.book removed) },
          written := some (books.eraseIdx i) } := by
  cases hidx : findIndexById books id with
  | none =>
    rw [deleteBook_not_found id books env hidx] at hs
    simp [rejected] at hs
  | some i =>
    obtain ⟨current, hcur, -, -, -⟩ := findIndexById_some books id i hidx
    rcases deleteBook_cases id books env i current hidx hcur with ⟨hw, he⟩ | ⟨-, he⟩
    · exact ⟨i, current, rfl, hcur, hw, he⟩
    · rw [he] at hs; simp at hs

/-! ## Search -/

theorem hasInfix_iff (q l : List Char) : hasInfix q l = true ↔ q <:+: l := by
  induction l with
  | nil =>
    cases q with
    | nil => simp [hasInfix]
    | cons c cs => simp [hasInfix]
  | cons a l ih =>
    rw [hasInfix, Bool.or_eq_true, List.isPrefixOf_iff_prefix, ih, List.infix_cons_iff]

theorem lowerIncludes_text (toLowerCase : String → String) (query : String) (v : JsValue)
    (hv : isString v = true) :
    lowerIncludes toLowerCase v (toLowerCase query) =
      Except.ok (decide (fieldContains toLowerCase query v)) := by
  cases v with
  | string s =>
    simp only [lowerIncludes, fieldContains, includes]
    congr 1
    rw [Bool.eq_iff_iff, hasInfix_iff]
    simp
  | undefined => simp [isString] at hv
  | null => simp [isString] at hv
  | bool b => simp [isString] at hv
  | number n => simp [isString] at hv

theorem matchesQuery_text (toLowerCase : String → String) (query : String) (book : Book)
    (hwf : HasTextFields book) :
    matchesQuery toLowerCase (toLowerCase query) book =
      Except.ok (decide (SpecMatches toLowerCase query book)) := by
  obtain ⟨ht, ha, hg⟩ := hwf
  unfold matchesQuery SpecMatches
  rw [lowerIncludes_text toLowerCase query _ ht, lowerIncludes_text toLowerCase query _ ha,
    lowerIncludes_text toLowerCase query _ hg]
  by_cases h1 : fieldContains toLowerCase query (getProp book "title")
  · simp [h1]
  · by_cases h2 : fieldContains toLowerCase query (getProp book "author")
    · simp [h1, h2]
    · simp [h1, h2]

theorem filterBooks_text (toLowerCase : String → String) (query : String) (books : List Book)
    (hwf : ∀ b ∈ books, HasTextFields b) :
    filterBooks toLowerCase (toLowerCase query) books =
      Except.ok (books.filter (fun b => decide (SpecMatches toLowerCase query b))) := by
  induction books with
  | nil => rfl
  | cons b rest ih =>
    have hb : HasTextFields b := hwf b (List.mem_cons_self b rest)
    have hrest : ∀ x ∈ rest, HasTextFields x := fun x hx => hwf x (List.mem_cons_of_mem b hx)
    rw [filterBooks, matchesQuery_text toLowerCase query b hb, ih hrest]
    by_cases h : SpecMatches toLowerCase query b
    · simp [List.filter_cons, h]
    · simp [List.filter_cons, h]

/-! ## The data file -/

theorem getProp_filter_names (o : JsObject) (keep : String → Bool) (k : String) :
    getProp (o.filter (fun p => keep p.1)) k =
      if keep k = true then getProp o k else JsValue.undefined := by
  induction o with
  | nil => simp [getProp]
  | cons p rest ih =>
    obtain ⟨k0, v0⟩ := p
    by_cases hk0 : keep k0 = true
    · rw [List.filter_cons_of_pos (by simpa using hk0)]
      by_cases h : k0 = k
      · subst h
        simp [getProp, hk0]
      · simp only [getProp, h, if_false]
        exact ih
    · rw [List.filter_cons_of_neg (by simpa using hk0)]
      by_cases h : k0 = k
      · subst h
        rw [ih]
        simp [hk0]
      · simp only [getProp, h, if_false]
        exact ih

/-- The properties `JSON.stringify` writes for a record read back the values
the record has. -/
theorem getProp_stringified (b : Book) (k : String) :
    getProp (b.filter (fun p => decide (getProp b p.1 ≠ JsValue.undefined))) k = getProp b k := by
  rw [getProp_filter_names b (fun name => decide (getProp b name ≠ JsValue.undefined)) k]
  by_cases h : getProp b k = JsValue.undefined
  · simp [h]
  · simp [h]

theorem itemsToBooks_objects (books : List Book) (f : Book → Book) :
    itemsToBooks (books.map (fun b => JsonItem.object (f b))) = some (books.map f) := by
  induction books with
  | nil => rfl
  | cons b rest ih => simp [itemsToBooks, ih]

theorem collectionOf_stringifyBooks (books : List Book) :
    collectionOf (stringifyBooks books) =
      some (books.map (fun b =>
        b.filter (fun p => decide (getProp b p.1 ≠ JsValue.undefined)))) := by
  unfold stringifyBooks collectionOf
  exact itemsToBooks_objects books _

/-- When reading or parsing throws, `readBooks` returns the empty array. -/
theorem readBooks_empty_on_failure (text : String) :
    readBooks DataFile.unreadable = Json.array [] ∧
    readBooks (DataFile.unparsable text) = Json.array [] ∧
    collectionOf (Json.array []) = some [] :=
  ⟨rfl, rfl, rfl⟩

/-! ## Id uniqueness -/

theorem idUnique_append (books : List Book) (added : Book) (h : IdUnique books)
    (hnew : ∀ b ∈ books, getProp b "id" ≠ getProp added "id") :
    IdUnique (books ++ [added]) := by
  unfold IdUnique at h ⊢
  rw [List.pairwise_append]
  refine ⟨h, List.pairwise_singleton _ _, ?_⟩
  intro a ha b hb
  rw [List.mem_singleton] at hb
  subst hb
  exact hnew a ha

theorem idUnique_eraseIdx (books : List Book) (i : Nat) (h : IdUnique books) :
    IdUnique (books.eraseIdx i) :=
  List.Pairwise.sublist (List.eraseIdx_sublist books i) h

theorem idUnique_set (books : List Book) (i : Nat) (current replacement : Book)
    (h : IdUnique books) (hcur : books[i]? = some current)
    (hsame : getProp replacement "id" = getProp current "id") :
    IdUnique (books.set i replacement) := by
  unfold IdUnique at h ⊢
  rw [List.pairwise_iff_getElem] at h ⊢
  obtain ⟨hi, hci⟩ := List.getElem?_eq_some.mp hcur
  intro a b ha hb hab
  rw [List.length_set] at ha hb
  rw [List.getElem_set, List.getElem_set]
  by_cases hia : i = a
  · subst hia
    have hib : ¬ i = b := Nat.ne_of_lt hab
    simp only [if_true, hib, if_false]
    rw [hsame, ← hci]
    exact h i b hi hb hab
  · by_cases hib : i = b
    · subst hib
      simp only [hia, if_false, if_true]
      rw [hsame, ← hci]
      exact h a i ha hi hab
    · simp only [hia, hib, if_false]
      exact h a b ha hb hab

/-! ## Claims -/

/-- C1: ISBN uniqueness is preserved by every successful Create, Update and
Delete: when no two records of the collection share a present isbn, the
collection stored by a successful request has the same property, for every
request body and id. -/
theorem isbn_unique_preserved (books : List Book) (env : Env) (h : IsbnUnique books) :
    (∀ body, (postBooks body books env).response.success = true →
      ∃ stored, (postBooks body books env).written = some stored ∧ IsbnUnique stored) ∧
    (∀ id body, (putBook id body books env).response.success = true →
      ∃ stored, (putBook id body books env).written = some stored ∧ IsbnUnique stored) ∧
    (∀ id, (deleteBook id books env).response.success = true →
      ∃ stored, (deleteBook id books env).written = some stored ∧ IsbnUnique stored) := by
  refine ⟨?_, ?_, ?_⟩
  · intro body hs
    rcases postBooks_cases body books env with
      ⟨-, he⟩ | ⟨-, -, -, -, he⟩ | ⟨-, -, hno, ⟨-, he⟩ | ⟨-, he⟩⟩
    · rw [he] at hs; simp [rejected] at hs
    · rw [he] at hs; simp [rejected] at hs
    · rw [he]
      refine ⟨_, rfl, isbnUnique_append books _ h ?_⟩
      rw [getProp_newBook_isbn]
      cases hi : (getProp body "isbn").truthy with
      | false => left; exact truthy_or_right _ _ hi
      | true => right; rw [truthy_or_left _ _ hi]; exact hno hi
    · rw [he] at hs; simp at hs
  · intro id body hs
    cases hidx : findIndexById books id with
    | none =>
      rw [putBook_not_found id body books env hidx] at hs
      simp [rejected] at hs
    | some i =>
      obtain ⟨current, hcur, -, -, -⟩ := findIndexById_some books id i hidx
      rcases putBook_cases id body books env i current hidx hcur with
        ⟨-, he⟩ | ⟨-, -, -, -, -, he⟩ | ⟨-, -, hno, ⟨-, he⟩ | ⟨-, he⟩⟩
      · rw [he] at hs; simp [rejected] at hs
      · rw [he] at hs; simp [rejected] at hs
      · rw [he]
        refine ⟨_, rfl, isbnUnique_set books i current _ h hcur ?_⟩
        rw [getProp_updatedBook_isbn]
        cases hi : (getProp body "isbn").truthy with
        | false => right; left; exact truthy_or_right _ _ hi
        | true =>
          rw [truthy_or_left _ _ hi]
          by_cases hsame : getProp body "isbn" = getProp current "isbn"
          · left; exact hsame
          · right; right; exact hno hi hsame
      · rw [he] at hs; simp at hs
  · intro id hs
    cases hidx : findIndexById books id with
    | none =>
      rw [deleteBook_not_found id books env hidx] at hs
      simp [rejected] at hs
    | some i =>
      obtain ⟨current, hcur, -, -, -⟩ := findIndexById_some books id i hidx
      rcases deleteBook_cases id books env i current hidx hcur with ⟨-, he⟩ | ⟨-, he⟩
      · rw [he]
        exact ⟨_, rfl, isbnUnique_eraseIdx books i h⟩
      · rw [he] at hs; simp at hs

/-- C1 witness: the two-record collection satisfies the invariant, and an
update of its first record to a fresh isbn succeeds and stores a collection
that satisfies it. -/
theorem isbn_unique_preserved_witness :
    IsbnUnique [dune, emma] ∧
    ∃ stored,
      (putBook "b1" [("title", JsValue.string "Dune"), ("author", JsValue.string "Herbert"),
        ("isbn", JsValue.string "222")] [dune, emma] sampleEnv).written = some stored ∧
      IsbnUnique stored :=
  ⟨by decide,
   (isbn_unique_preserved [dune, emma] sampleEnv (by decide)).2.1 "b1" _ (by decide)⟩

/-- C2: a Create whose title and author are non-empty and whose non-empty isbn
equals the isbn of a stored record is answered with status 400 and the message
"Book with this ISBN already exists"; nothing is written, so the persisted
collection is the one found. -/
theorem create_duplicate_isbn_conflict (body : JsObject) (books : List Book) (env : Env)
    (ht : (getProp body "title").truthy = true) (ha : (getProp body "author").truthy = true)
    (hi : (getProp body "isbn").truthy = true)
    (hdup : ∃ book ∈ books, getProp book "isbn" = getProp body "isbn") :
    (postBooks body books env).response =
      { status := 400, success := false, message := some "Book with this ISBN already exists" } ∧
    (postBooks body books env).written = none ∧
    (postBooks body books env).persisted books = books := by
  rcases postBooks_cases body books env with
    ⟨hv, -⟩ | ⟨-, -, -, -, he⟩ | ⟨-, -, hno, -⟩
  · rcases hv with h | h
    · rw [ht] at h; cases h
    · rw [ha] at h; cases h
  · rw [he]
    simp [rejected, Outcome.persisted]
  · obtain ⟨book, hb, heq⟩ := hdup
    exact absurd heq (hno hi book hb)

/-- C2 witness: the scenario of the specification, Create of "Foo" by "Bar"
with isbn "111" against a collection holding Dune with isbn "111". -/
theorem create_duplicate_isbn_conflict_witness :
    ((getProp fooBody "title").truthy = true ∧ (getProp fooBody "author").truthy = true ∧
      (getProp fooBody "isbn").truthy = true ∧
      ∃ book ∈ [dune], getProp book "isbn" = getProp fooBody "isbn") ∧
    (postBooks fooBody [dune] sampleEnv).response =
      { status := 400, success := false, message := some "Book with this ISBN already exists" } ∧
    (postBooks fooBody [dune] sampleEnv).written = none ∧
    (postBooks fooBody [dune] sampleEnv).persisted [dune] = [dune] :=
  ⟨by decide,
   create_duplicate_isbn_conflict fooBody [dune] sampleEnv (by decide) (by decide) (by decide)
     (by decide)⟩

/-- C3: when the title or the author of the body is falsy (absent, or the empty
string), Create answers 400 "Title and author are required fields", and Update
on an id that a stored record has answers 400 "Title and author are required
fields, please fill in the required fields"; neither writes, so the persisted
collection is the one found. -/
theorem missing_title_or_author_rejected (body : JsObject) (books : List Book) (env : Env)
    (h : (getProp body "title").truthy = false ∨ (getProp body "author").truthy = false) :
    ((postBooks body books env).response =
        { status := 400, success := false,
          message := some "Title and author are required fields" } ∧
      (postBooks body books env).written = none ∧
      (postBooks body books env).persisted books = books) ∧
    ∀ id, (∃ b ∈ books, getProp b "id" = JsValue.string id) →
      (putBook id body books env).response =
        { status := 400, success := false,
          message := some
            "Title and author are required fields, please fill in the required fields" } ∧
      (putBook id body books env).written = none ∧
      (putBook id body books env).persisted books = books := by
  constructor
  · rcases postBooks_cases body books env with
      ⟨-, he⟩ | ⟨ht, ha, -⟩ | ⟨ht, ha, -⟩
    · rw [he]; simp [rejected, Outcome.persisted]
    · rcases h with h | h
      · rw [ht] at h; cases h
      · rw [ha] at h; cases h
    · rcases h with h | h
      · rw [ht] at h; cases h
      · rw [ha] at h; cases h
  · intro id hid
    obtain ⟨i, hidx⟩ := (findIndexById_isSome_iff books id).mpr hid
    obtain ⟨current, hcur, -, -, -⟩ := findIndexById_some books id i hidx
    rcases putBook_cases id body books env i current hidx hcur with
      ⟨-, he⟩ | ⟨ht, ha, -⟩ | ⟨ht, ha, -⟩
    · rw [he]; simp [rejected, Outcome.persisted]
    · rcases h with h | h
      · rw [ht] at h; cases h
      · rw [ha] at h; cases h
    · rcases h with h | h
      · rw [ht] at h; cases h
      · rw [ha] at h; cases h

/-- C3 witness: a body with an empty title and no author, against the
two-record collection, for Create and for Update of the record "b2". -/
theorem missing_title_or_author_rejected_witness :
    ((getProp [("title", JsValue.string "")] "title").truthy = false ∨
      (getProp [("title", JsValue.string "")] "author").truthy = false) ∧
    (∃ b ∈ [dune, emma], getProp b "id" = JsValue.string "b2") ∧
    (postBooks [("title", JsValue.string "")] [dune, emma] sampleEnv).response =
      { status := 400, success := false,
        message := some "Title and author are required fields" } ∧
    (putBook "b2" [("title", JsValue.string "")] [dune, emma] sampleEnv).response =
      { status := 400, success := false,
        message := some
          "Title and author are required fields, please fill in the required fields" } ∧
    (putBook "b2" [("title", JsValue.string "")] [dune, emma] sampleEnv).written = none :=
  have h := missing_title_or_author_rejected [("title", JsValue.string "")] [dune, emma]
    sampleEnv (by decide)
  have hput := h.2 "b2" (by decide)
  ⟨by decide, by decide, h.1.1, hput.1, hput.2.1⟩

/-- C4: a Create whose body supplies only a non-empty title and a non-empty
author (isbn, genre, publishedYear and description absent) is answered, the file
write completing, with status 201 and a record that has that title and author,
isbn null, genre "Unknown", publishedYear null and description "". -/
theorem create_minimal_defaults (body : JsObject) (books : List Book) (env : Env)
    (ht : (getProp body "title").truthy = true) (ha : (getProp body "author").truthy = true)
    (hisbn : getProp body "isbn" = JsValue.undefined)
    (hgenre : getProp body "genre" = JsValue.undefined)
    (hyear : getProp body "publishedYear" = JsValue.undefined)
    (hdesc : getProp body "description" = JsValue.undefined)
    (hw : env.writeError = none) :
    ∃ created,
      (postBooks body books env).response.status = 201 ∧
      (postBooks body books env).response.success = true ∧
      (postBooks body books env).response.data = some (Data.book created) ∧
      getProp created "title" = getProp body "title" ∧
      getProp created "author" = getProp body "author" ∧
      getProp created "isbn" = JsValue.null ∧
      getProp created "genre" = JsValue.string "Unknown" ∧
      getProp created "publishedYear" = JsValue.null ∧
      getProp created "description" = JsValue.string "" := by
  have hfresh : (getProp body "isbn").truthy = true →
      ∀ book ∈ books, getProp book "isbn" ≠ getProp body "isbn" := by
    intro hi
    rw [hisbn] at hi
    cases hi
  have he := postBooks_accepts body books env ht ha hfresh hw
  obtain ⟨-, h2, h3, h4, h5, h6, -, -⟩ := getProp_newBook body env
  refine ⟨newBook body env, ?_, ?_, ?_, h2, h3, ?_, ?_, ?_, ?_⟩
  · rw [he]
  · rw [he]
  · rw [he]
  · rw [getProp_newBook_isbn, hisbn]; rfl
  · rw [h4, hgenre]; rfl
  · rw [h5, hyear]; rfl
  · rw [h6, hdesc]; rfl

/-- C4 witness: the scenario of the specification, Create of title "T" and
author "A" with no other field, against the two-record collection. -/
theorem create_minimal_defaults_witness :
    ((getProp minimalBody "title").truthy = true ∧ (getProp minimalBody "author").truthy = true ∧
      getProp minimalBody "isbn" = JsValue.undefined ∧
      getProp minimalBody "genre" = JsValue.undefined ∧
      getProp minimalBody "publishedYear" = JsValue.undefined ∧
      getProp minimalBody "description" = JsValue.undefined ∧
      sampleEnv.writeError = none) ∧
    ∃ created,
      (postBooks minimalBody [dune, emma] sampleEnv).response.status = 201 ∧
      (postBooks minimalBody [dune, emma] sampleEnv).response.success = true ∧
      (postBooks minimalBody [dune, emma] sampleEnv).response.data = some (Data.book created) ∧
      getProp created "title" = getProp minimalBody "title" ∧
      getProp created "author" = getProp minimalBody "author" ∧
      getProp created "isbn" = JsValue.null ∧
      getProp created "genre" = JsValue.string "Unknown" ∧
      getProp created "publishedYear" = JsValue.null ∧
      getProp created "description" = JsValue.string "" :=
  ⟨by decide,
   create_minimal_defaults minimalBody [dune, emma] sampleEnv (by decide) (by decide)
     (by decide) (by decide) (by decide) (by decide) (by decide)⟩

/-- C5, as stated, fails: a Create that supplies the integer publishedYear 0
and the genre "" succeeds and returns a record whose publishedYear is null and
whose genre is "Unknown", not the supplied values. -/
theorem create_supplied_falsy_replaced :
    getProp yearZeroBody "publishedYear" = JsValue.number 0 ∧
    getProp yearZeroBody "genre" = JsValue.string "" ∧
    (postBooks yearZeroBody [dune, emma] sampleEnv).response.status = 201 ∧
    ∃ created,
      (postBooks yearZeroBody [dune, emma] sampleEnv).response.data = some (Data.book created) ∧
      getProp created "publishedYear" = JsValue.null ∧
      getProp created "publishedYear" ≠ getProp yearZeroBody "publishedYear" ∧
      getProp created "genre" = JsValue.string "Unknown" ∧
      getProp created "genre" ≠ getProp yearZeroBody "genre" :=
  ⟨by decide, by decide, by decide, newBook yearZeroBody sampleEnv,
    by decide, by decide, by decide, by decide, by decide⟩

/-- C5, amended: for a Create with non-empty title and author whose isbn, when
non-empty, is on no stored record (the file write completing), each of isbn,
genre, publishedYear and description appears in the returned record with the
supplied value when that value is truthy (a non-empty string, a non-zero
number), and with the default (null, "Unknown", null, "") when it is absent or
falsy (the empty string, 0). -/
theorem create_supplied_fields (body : JsObject) (books : List Book) (env : Env)
    (ht : (getProp body "title").truthy = true) (ha : (getProp body "author").truthy = true)
    (hfresh : (getProp body "isbn").truthy = true →
      ∀ book ∈ books, getProp book "isbn" ≠ getProp body "isbn")
    (hw : env.writeError = none) :
    ∃ created,
      (postBooks body books env).response.status = 201 ∧
      (postBooks body books env).response.data = some (Data.book created) ∧
      (∀ k ∈ ["isbn", "genre", "publishedYear", "description"],
        (getProp body k).truthy = true → getProp created k = getProp body k) ∧
      ((getProp body "isbn").truthy = false → getProp created "isbn" = JsValue.null) ∧
      ((getProp body "genre").truthy = false →
        getProp created "genre" = JsValue.string "Unknown") ∧
      ((getProp body "publishedYear").truthy = false →
        getProp created "publishedYear" = JsValue.null) ∧
      ((getProp body "description").truthy = false →
        getProp created "description" = JsValue.string "") := by
  have he := postBooks_accepts body books env ht ha hfresh hw
  obtain ⟨-, -, -, h4, h5, h6, -, -⟩ := getProp_newBook body env
  refine ⟨newBook body env, by rw [he], by rw [he], ?_, ?_, ?_, ?_, ?_⟩
  · intro k hk hk_truthy
    simp only [List.mem_cons, List.mem_singleton, List.not_mem_nil, or_false] at hk
    rcases hk with rfl | rfl | rfl | rfl
    · rw [getProp_newBook_isbn, truthy_or_left _ _ hk_truthy]
    · rw [h4, truthy_or_left _ _ hk_truthy]
    · rw [h5, truthy_or_left _ _ hk_truthy]
    · rw [h6, truthy_or_left _ _ hk_truthy]
  · intro hf; rw [getProp_newBook_isbn, truthy_or_right _ _ hf]
  · intro hf; rw [h4, truthy_or_right _ _ hf]
  · intro hf; rw [h5, truthy_or_right _ _ hf]
  · intro hf; rw [h6, truthy_or_right _ _ hf]

/-- C5 witness: the body of the repository's "valid data" test, every optional
field supplied, against the two-record collection. -/
theorem create_supplied_fields_witness :
    ((getProp fullBody "title").truthy = true ∧ (getProp fullBody "author").truthy = true ∧
      ((getProp fullBody "isbn").truthy = true →
        ∀ book ∈ [dune, emma], getProp book "isbn" ≠ getProp fullBody "isbn") ∧
      sampleEnv.writeError = none) ∧
    ∃ created,
      (postBooks fullBody [dune, emma] sampleEnv).response.status = 201 ∧
      (postBooks fullBody [dune, emma] sampleEnv).response.data = some (Data.book created) ∧
      (∀ k ∈ ["isbn", "genre", "publishedYear", "description"],
        (getProp fullBody k).truthy = true → getProp created k = getProp fullBody k) ∧
      ((getProp fullBody "isbn").truthy = false → getProp created "isbn" = JsValue.null) ∧
      ((getProp fullBody "genre").truthy = false →
        getProp created "genre" = JsValue.string "Unknown") ∧
      ((getProp fullBody "publishedYear").truthy = false →
        getProp created "publishedYear" = JsValue.null) ∧
      ((getProp fullBody "description").truthy = false →
        getProp created "description" = JsValue.string "") :=
  ⟨⟨by decide, by decide, by decide, by decide⟩,
   create_supplied_fields fullBody [dune, emma] sampleEnv (by decide) (by decide)
     (by decide) (by decide)⟩

/-- C6: after a successful Create the stored collection is the collection found
with the new record appended: one record longer, every prior record at its
prior position, and the record returned to the caller last. -/
theorem create_appends_record (body : JsObject) (books : List Book) (env : Env)
    (hs : (postBooks body books env).response.success = true) :
    ∃ created stored,
      (postBooks body books env).response.data = some (Data.book created) ∧
      (postBooks body books env).written = some stored ∧
      stored = books ++ [created] ∧
      stored.length = books.length + 1 ∧
      (∀ i, i < books.length → stored[i]? = books[i]?) ∧
      stored.getLast? = some created := by
  obtain ⟨-, -, -, -, he⟩ := postBooks_success body books env hs
  refine ⟨newBook body env, books ++ [newBook body env], by rw [he], by rw [he], rfl, ?_, ?_, ?_⟩
  · simp
  · intro i hi
    exact List.getElem?_append_left hi
  · simp

/-- C6 witness: Create of the minimal body against the two-record collection. -/
theorem create_appends_record_witness :
    (postBooks minimalBody [dune, emma] sampleEnv).response.success = true ∧
    ∃ created stored,
      (postBooks minimalBody [dune, emma] sampleEnv).response.data = some (Data.book created) ∧
      (postBooks minimalBody [dune, emma] sampleEnv).written = some stored ∧
      stored = [dune, emma] ++ [created] ∧
      stored.length = [dune, emma].length + 1 ∧
      (∀ i, i < [dune, emma].length → stored[i]? = [dune, emma][i]?) ∧
      stored.getLast? = some created :=
  ⟨by decide, create_appends_record minimalBody [dune, emma] sampleEnv (by decide)⟩

/-- C7, on the code: with a clock whose second reading is one millisecond after
the first, a successful Create returns a record whose createdAt and updatedAt
differ, since each is a separate evaluation of the clock. -/
theorem create_timestamps_differ :
    sampleEnv.clock 0 ≠ sampleEnv.clock 1 ∧
    (postBooks minimalBody [] sampleEnv).response.success = true ∧
    ∃ created,
      (postBooks minimalBody [] sampleEnv).response.data = some (Data.book created) ∧
      getProp created "createdAt" = JsValue.string "2024-05-01T10:00:00.000Z" ∧
      getProp created "updatedAt" = JsValue.string "2024-05-01T10:00:00.001Z" ∧
      getProp created "createdAt" ≠ getProp created "updatedAt" :=
  ⟨by decide, by decide, newBook minimalBody sampleEnv, by decide, by decide, by decide,
    by decide⟩

/-- C8: after a successful Update, each of genre, publishedYear and description
of the updated record is the value of the body when that value is truthy, and
the value the record had before when the value of the body is falsy (absent,
the empty string, 0); the Create default plays no part. -/
theorem update_optional_fields (id : String) (body : JsObject) (books : List Book) (env : Env)
    (hs : (putBook id body books env).response.success = true) :
    ∃ i current updated,
      findIndexById books id = some i ∧ books[i]? = some current ∧
      (putBook id body books env).response.data = some (Data.book updated) ∧
      (putBook id body books env).written = some (books.set i updated) ∧
      ∀ k ∈ ["genre", "publishedYear", "description"],
        ((getProp body k).truthy = true → getProp updated k = getProp body k) ∧
        ((getProp body k).truthy = false → getProp updated k = getProp current k) := by
  obtain ⟨i, current, hidx, hcur, -, -, -, he⟩ := putBook_success id body books env hs
  refine ⟨i, current, updatedBook current body env, hidx, hcur, by rw [he], by rw [he], ?_⟩
  intro k hk
  simp only [List.mem_cons, List.mem_singleton, List.not_mem_nil, or_false] at hk
  rcases hk with rfl | rfl | rfl
  · rw [getProp_updatedBook_genre]
    exact ⟨fun h => truthy_or_left _ _ h, fun h => truthy_or_right _ _ h⟩
  · rw [getProp_updatedBook_publishedYear]
    exact ⟨fun h => truthy_or_left _ _ h, fun h => truthy_or_right _ _ h⟩
  · rw [getProp_updatedBook_description]
    exact ⟨fun h => truthy_or_left _ _ h, fun h => truthy_or_right _ _ h⟩

/-- C8 witness: Update of Dune with a body whose genre is "" and whose
publishedYear is 0 and whose description is "Sequel". -/
theorem update_optional_fields_witness :
    (putBook "b1" intrusiveBody [dune, emma] sampleEnv).response.success = true ∧
    ∃ i current updated,
      findIndexById [dune, emma] "b1" = some i ∧ [dune, emma][i]? = some current ∧
      (putBook "b1" intrusiveBody [dune, emma] sampleEnv).response.data =
        some (Data.book updated) ∧
      (putBook "b1" intrusiveBody [dune, emma] sampleEnv).written =
        some ([dune, emma].set i updated) ∧
      ∀ k ∈ ["genre", "publishedYear", "description"],
        ((getProp intrusiveBody k).truthy = true →
          getProp updated k = getProp intrusiveBody k) ∧
        ((getProp intrusiveBody k).truthy = false → getProp updated k = getProp current k) :=
  ⟨by decide, update_optional_fields "b1" intrusiveBody [dune, emma] sampleEnv (by decide)⟩

/-- C9: after a successful Update the id and the createdAt of the updated record
are those of the record before the update, for every body, also one that has
id or createdAt members of its own. -/
theorem update_preserves_id_createdAt (id : String) (body : JsObject) (books : List Book)
    (env : Env) (hs : (putBook id body books env).response.success = true) :
    ∃ i current updated,
      findIndexById books id = some i ∧ books[i]? = some current ∧
      (putBook id body books env).response.data = some (Data.book updated) ∧
      (putBook id body books env).written = some (books.set i updated) ∧
      getProp updated "id" = getProp current "id" ∧
      getProp updated "id" = JsValue.string id ∧
      getProp updated "createdAt" = getProp current "createdAt" := by
  obtain ⟨i, current, hidx, hcur, -, -, -, he⟩ := putBook_success id body books env hs
  obtain ⟨c, hc, -, hid, -⟩ := findIndexById_some books id i hidx
  rw [hcur] at hc
  cases hc
  have h1 : getProp (updatedBook current body env) "id" = getProp current "id" :=
    getProp_updatedBook_other current body env "id" (by decide) (by decide) (by decide)
      (by decide) (by decide) (by decide) (by decide)
  have h2 : getProp (updatedBook current body env) "createdAt" = getProp current "createdAt" :=
    getProp_updatedBook_other current body env "createdAt" (by decide) (by decide) (by decide)
      (by decide) (by decide) (by decide) (by decide)
  exact ⟨i, current, updatedBook current body env, hidx, hcur, by rw [he], by rw [he], h1,
    h1.trans hid, h2⟩

/-- C9 witness: Update of Dune with a body that carries the members
id "hijacked" and createdAt "1999-01-01T00:00:00.000Z". -/
theorem update_preserves_id_createdAt_witness :
    (putBook "b1" intrusiveBody [dune, emma] sampleEnv).response.success = true ∧
    getProp intrusiveBody "id" = JsValue.string "hijacked" ∧
    ∃ i current updated,
      findIndexById [dune, emma] "b1" = some i ∧ [dune, emma][i]? = some current ∧
      (putBook "b1" intrusiveBody [dune, emma] sampleEnv).response.data =
        some (Data.book updated) ∧
      (putBook "b1" intrusiveBody [dune, emma] sampleEnv).written =
        some ([dune, emma].set i updated) ∧
      getProp updated "id" = getProp current "id" ∧
      getProp updated "id" = JsValue.string "b1" ∧
      getProp updated "createdAt" = getProp current "createdAt" :=
  ⟨by decide, by decide,
   update_preserves_id_createdAt "b1" intrusiveBody [dune, emma] sampleEnv (by decide)⟩

/-- C10: for an Update on an id that a stored record has, with non-empty title
and author, the answer is the conflict error "Book with this ISBN already
exists" (status 400) exactly when the isbn of the body is non-empty, differs
from the current isbn of the target record, and equals the isbn of a record at
another position of the collection; an Update whose isbn equals the current
isbn of the target record is not a conflict and, the file write completing,
succeeds with status 200. -/
theorem update_conflict_iff (id : String) (body : JsObject) (books : List Book) (env : Env)
    (hid : ∃ b ∈ books, getProp b "id" = JsValue.string id)
    (ht : (getProp body "title").truthy = true) (ha : (getProp body "author").truthy = true) :
    ∃ i current,
      findIndexById books id = some i ∧ books[i]? = some current ∧
      ((putBook id body books env).response =
          { status := 400, success := false,
            message := some "Book with this ISBN already exists" } ↔
        ((getProp body "isbn").truthy = true ∧
          getProp body "isbn" ≠ getProp current "isbn" ∧
          ∃ j other, j ≠ i ∧ books[j]? = some other ∧
            getProp other "isbn" = getProp body "isbn")) ∧
      (getProp body "isbn" = getProp current "isbn" →
        (putBook id body books env).response ≠
          { status := 400, success := false,
            message := some "Book with this ISBN already exists" } ∧
        (env.writeError = none →
          (putBook id body books env).response.status = 200 ∧
          (putBook id body books env).response.success = true)) := by
  obtain ⟨i, hidx⟩ := (findIndexById_isSome_iff books id).mpr hid
  obtain ⟨current, hcur, -, -, -⟩ := findIndexById_some books id i hidx
  refine ⟨i, current, hidx, hcur, ?_, ?_⟩
  · constructor
    · intro hresp
      rcases putBook_cases id body books env i current hidx hcur with
        ⟨hv, -⟩ | ⟨-, -, hi, hne, ⟨book, hb, heq⟩, -⟩ | ⟨-, -, -, ⟨-, he⟩ | ⟨-, he⟩⟩
      · rcases hv with h | h
        · rw [ht] at h; cases h
        · rw [ha] at h; cases h
      · obtain ⟨j, hj⟩ := List.mem_iff_getElem?.mp hb
        refine ⟨hi, hne, j, book, ?_, hj, heq⟩
        intro hji
        subst hji
        rw [hcur] at hj
        cases hj
        exact hne heq.symm
      · rw [he] at hresp; simp at hresp
      · rw [he] at hresp; simp at hresp
    · rintro ⟨hi, hne, j, other, -, hj, heq⟩
      rcases putBook_cases id body books env i current hidx hcur with
        ⟨hv, -⟩ | ⟨-, -, -, -, -, he⟩ | ⟨-, -, hno, -⟩
      · rcases hv with h | h
        · rw [ht] at h; cases h
        · rw [ha] at h; cases h
      · rw [he]; rfl
      · exact absurd heq (hno hi hne other (List.getElem?_mem hj))
  · intro hsame
    rcases putBook_cases id body books env i current hidx hcur with
      ⟨hv, -⟩ | ⟨-, -, -, hne, -⟩ | ⟨-, -, -, ⟨-, he⟩ | ⟨⟨cause, hc⟩, he⟩⟩
    · rcases hv with h | h
      · rw [ht] at h; cases h
      · rw [ha] at h; cases h
    · exact absurd hsame hne
    · rw [he]
      exact ⟨by simp, fun _ => ⟨rfl, rfl⟩⟩
    · rw [he]
      refine ⟨by simp, fun hw => ?_⟩
      rw [hw] at hc
      cases hc

/-- C10 witness: Update of Emma (no isbn) to the isbn "111" of Dune is a
conflict. -/
theorem update_conflict_iff_witness :
    ((∃ b ∈ [dune, emma], getProp b "id" = JsValue.string "b2") ∧
      (getProp fooBody "title").truthy = true ∧ (getProp fooBody "author").truthy = true) ∧
    ∃ i current,
      findIndexById [dune, emma] "b2" = some i ∧ [dune, emma][i]? = some current ∧
      ((putBook "b2" fooBody [dune, emma] sampleEnv).response =
          { status := 400, success := false,
            message := some "Book with this ISBN already exists" } ↔
        ((getProp fooBody "isbn").truthy = true ∧
          getProp fooBody "isbn" ≠ getProp current "isbn" ∧
          ∃ j other, j ≠ i ∧ [dune, emma][j]? = some other ∧
            getProp other "isbn" = getProp fooBody "isbn")) ∧
      (getProp fooBody "isbn" = getProp current "isbn" →
        (putBook "b2" fooBody [dune, emma] sampleEnv).response ≠
          { status := 400, success := false,
            message := some "Book with this ISBN already exists" } ∧
        (sampleEnv.writeError = none →
          (putBook "b2" fooBody [dune, emma] sampleEnv).response.status = 200 ∧
          (putBook "b2" fooBody [dune, emma] sampleEnv).response.success = true)) :=
  ⟨by decide,
   update_conflict_iff "b2" fooBody [dune, emma] sampleEnv (by decide) (by decide) (by decide)⟩

/-- C11: for an id that no record of the collection has, and for every body,
Update and Delete both answer 404 "Book not found" and write nothing, so the
collection is unchanged; for Update this holds whether or not the body would
pass validation or the isbn check. -/
theorem unknown_id_not_found (id : String) (body : JsObject) (books : List Book) (env : Env)
    (h : ∀ b ∈ books, getProp b "id" ≠ JsValue.string id) :
    ((putBook id body books env).response =
        { status := 404, success := false, message := some "Book not found" } ∧
      (putBook id body books env).written = none ∧
      (putBook id body books env).persisted books = books) ∧
    ((deleteBook id books env).response =
        { status := 404, success := false, message := some "Book not found" } ∧
      (deleteBook id books env).written = none ∧
      (deleteBook id books env).persisted books = books) := by
  have hidx : findIndexById books id = none := (findIndexById_none_iff books id).mpr h
  rw [putBook_not_found id body books env hidx, deleteBook_not_found id books env hidx]
  simp [rejected, Outcome.persisted]

/-- C11 witness: the id "nobody" against the two-record collection, with a
body that has no title and with a body whose isbn is that of Dune. -/
theorem unknown_id_not_found_witness :
    (∀ b ∈ [dune, emma], getProp b "id" ≠ JsValue.string "nobody") ∧
    (getProp [("isbn", JsValue.string "111")] "title").truthy = false ∧
    (putBook "nobody" [("isbn", JsValue.string "111")] [dune, emma] sampleEnv).response =
      { status := 404, success := false, message := some "Book not found" } ∧
    (putBook "nobody" fooBody [dune, emma] sampleEnv).response =
      { status := 404, success := false, message := some "Book not found" } ∧
    (deleteBook "nobody" [dune, emma] sampleEnv).response =
      { status := 404, success := false, message := some "Book not found" } ∧
    (deleteBook "nobody" [dune, emma] sampleEnv).written = none :=
  have h1 := unknown_id_not_found "nobody" [("isbn", JsValue.string "111")] [dune, emma]
    sampleEnv (by decide)
  have h2 := unknown_id_not_found "nobody" fooBody [dune, emma] sampleEnv (by decide)
  ⟨by decide, by decide, h1.1.1, h2.1.1, h1.2.1, h1.2.2.1⟩

/-- C12, as stated, fails: with a clock that reads 2023-12-31T23:59:59.999Z, a
successful Update of a record whose updatedAt is 2024-01-01T00:00:00.000Z
returns a record whose updatedAt is the reading of the clock, which is before
the prior updatedAt. -/
theorem update_timestamp_before_prior :
    (putBook "b1" fooBody [dune] earlyEnv).response.success = true ∧
    getProp dune "updatedAt" = JsValue.string "2024-01-01T00:00:00.000Z" ∧
    ∃ updated,
      (putBook "b1" fooBody [dune] earlyEnv).response.data = some (Data.book updated) ∧
      getProp updated "updatedAt" = JsValue.string "2023-12-31T23:59:59.999Z" ∧
      ¬ timestampLe (getProp dune "updatedAt") (getProp updated "updatedAt") := by
  refine ⟨by decide, by decide, updatedBook dune fooBody earlyEnv, by decide, by decide, ?_⟩
  have h1 : getProp dune "updatedAt" = JsValue.string "2024-01-01T00:00:00.000Z" := by decide
  have h2 : getProp (updatedBook dune fooBody earlyEnv) "updatedAt" =
      JsValue.string "2023-12-31T23:59:59.999Z" := by decide
  rw [h1, h2]
  show ¬ ("2024-01-01T00:00:00.000Z" ≤ "2023-12-31T23:59:59.999Z")
  rw [not_le]
  exact String.lt_iff_toList_lt.mpr (by decide)

/-- C12, amended: after a successful Update the updatedAt of the updated record
is the reading of the clock; it is at or after the prior updatedAt of the
record exactly when that reading is. -/
theorem update_sets_updatedAt (id : String) (body : JsObject) (books : List Book) (env : Env)
    (hs : (putBook id body books env).response.success = true) :
    ∃ i current updated,
      findIndexById books id = some i ∧ books[i]? = some current ∧
      (putBook id body books env).response.data = some (Data.book updated) ∧
      (putBook id body books env).written = some (books.set i updated) ∧
      getProp updated "updatedAt" = JsValue.string (env.clock 0) ∧
      (timestampLe (getProp current "updatedAt") (getProp updated "updatedAt") ↔
        timestampLe (getProp current "updatedAt") (JsValue.string (env.clock 0))) := by
  obtain ⟨i, current, hidx, hcur, -, -, -, he⟩ := putBook_success id body books env hs
  refine ⟨i, current, updatedBook current body env, hidx, hcur, by rw [he], by rw [he],
    getProp_updatedBook_updatedAt current body env, ?_⟩
  rw [getProp_updatedBook_updatedAt]

/-- C12 witness: Update of Dune under the sample clock. -/
theorem update_sets_updatedAt_witness :
    (putBook "b1" fooBody [dune, emma] sampleEnv).response.success = true ∧
    ∃ i current updated,
      findIndexById [dune, emma] "b1" = some i ∧ [dune, emma][i]? = some current ∧
      (putBook "b1" fooBody [dune, emma] sampleEnv).response.data =
        some (Data.book updated) ∧
      (putBook "b1" fooBody [dune, emma] sampleEnv).written =
        some ([dune, emma].set i updated) ∧
      getProp updated "updatedAt" = JsValue.string (sampleEnv.clock 0) ∧
      (timestampLe (getProp current "updatedAt") (getProp updated "updatedAt") ↔
        timestampLe (getProp current "updatedAt") (JsValue.string (sampleEnv.clock 0))) :=
  ⟨by decide, update_sets_updatedAt "b1" fooBody [dune, emma] sampleEnv (by decide)⟩

/-- C13: after a successful Update the title and the author of the updated
record are those of the body, and its isbn is the isbn of the body when that is
non-empty and null when it is absent or empty, whatever isbn was stored. -/
theorem update_title_author_isbn (id : String) (body : JsObject) (books : List Book)
    (env : Env) (hs : (putBook id body books env).response.success = true) :
    ∃ i current updated,
      findIndexById books id = some i ∧ books[i]? = some current ∧
      (putBook id body books env).response.data = some (Data.book updated) ∧
      (putBook id body books env).written = some (books.set i updated) ∧
      getProp updated "title" = getProp body "title" ∧
      getProp updated "author" = getProp body "author" ∧
      ((getProp body "isbn").truthy = true → getProp updated "isbn" = getProp body "isbn") ∧
      ((getProp body "isbn").truthy = false → getProp updated "isbn" = JsValue.null) := by
  obtain ⟨i, current, hidx, hcur, -, -, -, he⟩ := putBook_success id body books env hs
  refine ⟨i, current, updatedBook current body env, hidx, hcur, by rw [he], by rw [he],
    getProp_updatedBook_title current body env, getProp_updatedBook_author current body env,
    ?_, ?_⟩
  · intro h
    rw [getProp_updatedBook_isbn, truthy_or_left _ _ h]
  · intro h
    rw [getProp_updatedBook_isbn, truthy_or_right _ _ h]

/-- C13 witness: Update of Dune, whose stored isbn is "111", with a body that
has no isbn. -/
theorem update_title_author_isbn_witness :
    (putBook "b1" minimalBody [dune, emma] sampleEnv).response.success = true ∧
    getProp dune "isbn" = JsValue.string "111" ∧
    (getProp minimalBody "isbn").truthy = false ∧
    ∃ i current updated,
      findIndexById [dune, emma] "b1" = some i ∧ [dune, emma][i]? = some current ∧
      (putBook "b1" minimalBody [dune, emma] sampleEnv).response.data =
        some (Data.book updated) ∧
      (putBook "b1" minimalBody [dune, emma] sampleEnv).written =
        some ([dune, emma].set i updated) ∧
      getProp updated "title" = getProp minimalBody "title" ∧
      getProp updated "author" = getProp minimalBody "author" ∧
      ((getProp minimalBody "isbn").truthy = true →
        getProp updated "isbn" = getProp minimalBody "isbn") ∧
      ((getProp minimalBody "isbn").truthy = false → getProp updated "isbn" = JsValue.null) :=
  ⟨by decide, by decide, by decide,
   update_title_author_isbn "b1" minimalBody [dune, emma] sampleEnv (by decide)⟩

/-- C14: for an id that some record of the collection has (the file write
completing), Delete removes exactly one record, the first that has the id: the
collection is the records before it, the record, and the records after it; the
stored collection is the records before it followed by the records after it,
so one record shorter with every other record unchanged and in order; and the
record returned is the removed one as it was stored. -/
theorem delete_removes_first_match (id : String) (books : List Book) (env : Env)
    (hid : ∃ b ∈ books, getProp b "id" = JsValue.string id)
    (hw : env.writeError = none) :
    ∃ front removed back,
      books = front ++ removed :: back ∧
      (∀ b ∈ front, getProp b "id" ≠ JsValue.string id) ∧
      getProp removed "id" = JsValue.string id ∧
      (deleteBook id books env).response.status = 200 ∧
      (deleteBook id books env).response.success = true ∧
      (deleteBook id books env).response.data = some (Data.book removed) ∧
      (deleteBook id books env).written = some (front ++ back) ∧
      (front ++ back).length + 1 = books.length := by
  obtain ⟨i, hidx⟩ := (findIndexById_isSome_iff books id).mpr hid
  obtain ⟨front, removed, back, hcur, hsplit, herase, -, hfront, hrem⟩ :=
    findIndexById_split books id i hidx
  rcases deleteBook_cases id books env i removed hidx hcur with ⟨-, he⟩ | ⟨⟨cause, hc⟩, -⟩
  · refine ⟨front, removed, back, hsplit, hfront, hrem, by rw [he], by rw [he], by rw [he],
      by rw [he, herase], ?_⟩
    rw [hsplit]
    simp only [List.length_append, List.length_cons]
    omega
  · rw [hw] at hc
    cases hc

/-- C14 witness: Delete of the id "b1" from a collection in which the second
and the third record have it. -/
theorem delete_removes_first_match_witness :
    ((∃ b ∈ [emma, dune, duneAgain], getProp b "id" = JsValue.string "b1") ∧
      sampleEnv.writeError = none) ∧
    ∃ front removed back,
      [emma, dune, duneAgain] = front ++ removed :: back ∧
      (∀ b ∈ front, getProp b "id" ≠ JsValue.string "b1") ∧
      getProp removed "id" = JsValue.string "b1" ∧
      (deleteBook "b1" [emma, dune, duneAgain] sampleEnv).response.status = 200 ∧
      (deleteBook "b1" [emma, dune, duneAgain] sampleEnv).response.success = true ∧
      (deleteBook "b1" [emma, dune, duneAgain] sampleEnv).response.data =
        some (Data.book removed) ∧
      (deleteBook "b1" [emma, dune, duneAgain] sampleEnv).written = some (front ++ back) ∧
      (front ++ back).length + 1 = [emma, dune, duneAgain].length :=
  ⟨by decide,
   delete_removes_first_match "b1" [emma, dune, duneAgain] sampleEnv (by decide) (by decide)⟩

/-- C15, as stated, fails: in a collection where two records have the id "b1",
Delete of "b1" succeeds and removes the first of them, and Get of "b1" on the
stored collection answers 200 with the second. -/
theorem get_after_delete_finds_duplicate :
    (deleteBook "b1" [dune, duneAgain] sampleEnv).response.success = true ∧
    (deleteBook "b1" [dune, duneAgain] sampleEnv).written = some [duneAgain] ∧
    getBook "b1" [duneAgain] =
      { status := 200, success := true, data := some (Data.book duneAgain) } := by
  decide

/-- C15, amended: when exactly one record of the collection has the id, after
a successful Delete of the id a Get of the id on the stored collection answers
404 "Book not found". -/
theorem get_after_delete_not_found (id : String) (books : List Book) (env : Env)
    (hone : books.countP (hasId id) = 1)
    (hs : (deleteBook id books env).response.success = true) :
    ∃ stored,
      (deleteBook id books env).written = some stored ∧
      getBook id stored =
        { status := 404, success := false, message := some "Book not found" } := by
  obtain ⟨i, removed, hidx, -, -, he⟩ := deleteBook_success id books env hs
  obtain ⟨front, removed2, back, -, hsplit, herase, -, hfront, hrem⟩ :=
    findIndexById_split books id i hidx
  refine ⟨books.eraseIdx i, by rw [he], ?_⟩
  have hnone : ∀ b ∈ books.eraseIdx i, ¬ hasId id b = true := by
    rw [hsplit, List.countP_append, List.countP_cons] at hone
    have hr : hasId id removed2 = true := by
      simp [hasId, strictEq, hrem]
    rw [if_pos hr] at hone
    have hback : List.countP (hasId id) back = 0 := by omega
    rw [List.countP_eq_zero] at hback
    rw [herase]
    intro b hb
    rcases List.mem_append.mp hb with hf | hbk
    · intro hb2
      simp only [hasId, strictEq_iff] at hb2
      exact hfront b hf hb2
    · exact hback b hbk
  have hfind : (books.eraseIdx i).find?
      (fun b => strictEq (getProp b "id") (JsValue.string id)) = none :=
    List.find?_eq_none.mpr hnone
  simp only [getBook, hfind]

/-- C15 witness: Delete of "b1" from the two-record collection, in which one
record has that id. -/
theorem get_after_delete_not_found_witness :
    ([dune, emma].countP (hasId "b1") = 1 ∧
      (deleteBook "b1" [dune, emma] sampleEnv).response.success = true) ∧
    ∃ stored,
      (deleteBook "b1" [dune, emma] sampleEnv).written = some stored ∧
      getBook "b1" stored =
        { status := 404, success := false, message := some "Book not found" } :=
  ⟨by decide, get_after_delete_not_found "b1" [dune, emma] sampleEnv (by decide) (by decide)⟩

/-- C16: for a collection whose records have text for title, author and genre,
Search answers 200 with exactly the records for which the lower-cased query is
a substring of the lower-cased title, or author, or genre, in the order of the
collection; the count is the number of those records and the query returned is
the query as given; when no record matches, the count is 0 and the data is the
empty list. -/
theorem search_returns_matches (toLowerCase : String → String) (query : String)
    (books : List Book) (hwf : ∀ b ∈ books, HasTextFields b) :
    searchBooks toLowerCase query books =
      { status := 200, success := true,
        count := some (books.filter (fun b => decide (SpecMatches toLowerCase query b))).length,
        query := some query,
        data := some (Data.books
          (books.filter (fun b => decide (SpecMatches toLowerCase query b)))) } ∧
    (books.filter (fun b => decide (SpecMatches toLowerCase query b))).Sublist books ∧
    ((∀ b ∈ books, ¬ SpecMatches toLowerCase query b) →
      (searchBooks toLowerCase query books).count = some 0 ∧
      (searchBooks toLowerCase query books).data = some (Data.books [])) := by
  have he : searchBooks toLowerCase query books =
      { status := 200, success := true,
        count := some (books.filter (fun b => decide (SpecMatches toLowerCase query b))).length,
        query := some query,
        data := some (Data.books
          (books.filter (fun b => decide (SpecMatches toLowerCase query b)))) } := by
    simp only [searchBooks, filterBooks_text toLowerCase query books hwf]
  refine ⟨he, List.filter_sublist books, ?_⟩
  intro hnone
  have hnil : books.filter (fun b => decide (SpecMatches toLowerCase query b)) = [] := by
    rw [List.filter_eq_nil_iff]
    intro b hb
    simpa using hnone b hb
  rw [he, hnil]
  exact ⟨rfl, rfl⟩

/-- C16 witness: Search for "HERBERT" in the two-record collection returns
Dune, whose author is "Herbert". -/
theorem search_returns_matches_witness :
    (∀ b ∈ [dune, emma], HasTextFields b) ∧
    (searchBooks asciiLower "HERBERT" [dune, emma] =
      { status := 200, success := true,
        count := some
          ([dune, emma].filter (fun b => decide (SpecMatches asciiLower "HERBERT" b))).length,
        query := some "HERBERT",
        data := some (Data.books
          ([dune, emma].filter (fun b => decide (SpecMatches asciiLower "HERBERT" b)))) } ∧
      ([dune, emma].filter (fun b => decide (SpecMatches asciiLower "HERBERT" b))).Sublist
        [dune, emma] ∧
      ((∀ b ∈ [dune, emma], ¬ SpecMatches asciiLower "HERBERT" b) →
        (searchBooks asciiLower "HERBERT" [dune, emma]).count = some 0 ∧
        (searchBooks asciiLower "HERBERT" [dune, emma]).data = some (Data.books []))) ∧
    searchBooks asciiLower "HERBERT" [dune, emma] =
      { status := 200, success := true, count := some 1, query := some "HERBERT",
        data := some (Data.books [dune]) } :=
  ⟨by decide, search_returns_matches asciiLower "HERBERT" [dune, emma] (by decide), by decide⟩

/-- C17: Search is case-insensitive.  Two queries that are equal after
lower-casing get the same records and the same count from every collection;
and two records whose titles, authors and genres are texts that are pairwise
equal after lower-casing match the same queries. -/
theorem search_case_insensitive (toLowerCase : String → String) (books : List Book)
    (q1 q2 : String) (hq : toLowerCase q1 = toLowerCase q2)
    (b1 b2 : Book) (t1 a1 g1 t2 a2 g2 : String)
    (h1 : getProp b1 "title" = JsValue.string t1 ∧ getProp b1 "author" = JsValue.string a1 ∧
      getProp b1 "genre" = JsValue.string g1)
    (h2 : getProp b2 "title" = JsValue.string t2 ∧ getProp b2 "author" = JsValue.string a2 ∧
      getProp b2 "genre" = JsValue.string g2)
    (hcase : toLowerCase t1 = toLowerCase t2 ∧ toLowerCase a1 = toLowerCase a2 ∧
      toLowerCase g1 = toLowerCase g2) :
    ((searchBooks toLowerCase q1 books).data = (searchBooks toLowerCase q2 books).data ∧
      (searchBooks toLowerCase q1 books).count = (searchBooks toLowerCase q2 books).count ∧
      (searchBooks toLowerCase q1 books).status = (searchBooks toLowerCase q2 books).status) ∧
    (∀ query, matchesQuery toLowerCase (toLowerCase query) b1 =
        matchesQuery toLowerCase (toLowerCase query) b2) ∧
    (∀ query, SpecMatches toLowerCase query b1 ↔ SpecMatches toLowerCase query b2) := by
  obtain ⟨ht1, ha1, hg1⟩ := h1
  obtain ⟨ht2, ha2, hg2⟩ := h2
  obtain ⟨hct, hca, hcg⟩ := hcase
  refine ⟨?_, ?_, ?_⟩
  · unfold searchBooks
    rw [hq]
    cases filterBooks toLowerCase (toLowerCase q2) books with
    | ok found => exact ⟨rfl, rfl, rfl⟩
    | error e => exact ⟨rfl, rfl, rfl⟩
  · intro query
    unfold matchesQuery
    rw [ht1, ha1, hg1, ht2, ha2, hg2]
    simp only [lowerIncludes, hct, hca, hcg]
  · intro query
    unfold SpecMatches
    rw [ht1, ha1, hg1, ht2, ha2, hg2]
    simp only [fieldContains, hct, hca, hcg]

/-- C17 witness: the queries "Herbert" and "HERBERT", and Dune against the same
record with title, author and genre in another letter case. -/
theorem search_case_insensitive_witness :
    (asciiLower "Herbert" = asciiLower "HERBERT" ∧
      (getProp dune "title" = JsValue.string "Dune" ∧
        getProp dune "author" = JsValue.string "Herbert" ∧
        getProp dune "genre" = JsValue.string "Fiction") ∧
      (getProp duneUpper "title" = JsValue.string "DUNE" ∧
        getProp duneUpper "author" = JsValue.string "HERBERT" ∧
        getProp duneUpper "genre" = JsValue.string "fiction") ∧
      (asciiLower "Dune" = asciiLower "DUNE" ∧ asciiLower "Herbert" = asciiLower "HERBERT" ∧
        asciiLower "Fiction" = asciiLower "fiction")) ∧
    ((searchBooks asciiLower "Herbert" [dune, emma]).data =
        (searchBooks asciiLower "HERBERT" [dune, emma]).data ∧
      (searchBooks asciiLower "Herbert" [dune, emma]).count =
        (searchBooks asciiLower "HERBERT" [dune, emma]).count ∧
      (searchBooks asciiLower "Herbert" [dune, emma]).status =
        (searchBooks asciiLower "HERBERT" [dune, emma]).status) ∧
    (∀ query, matchesQuery asciiLower (asciiLower query) dune =
        matchesQuery asciiLower (asciiLower query) duneUpper) ∧
    (∀ query, SpecMatches asciiLower query dune ↔ SpecMatches asciiLower query duneUpper) :=
  ⟨by decide,
   search_case_insensitive asciiLower [dune, emma] "Herbert" "HERBERT" (by decide)
     dune duneUpper "Dune" "Herbert" "Fiction" "DUNE" "HERBERT" "fiction"
     (by decide) (by decide) (by decide)⟩

/-- C18, on the code: for a file whose text is the JSON object with no members,
`readBooks` returns that object, which is neither a Collection nor the empty
array; and for a file whose text is the JSON array of the number 1 it returns
that array, which is not a Collection of records. -/
theorem readBooks_returns_parsed_value_as_is :
    readBooks (DataFile.document (Json.object [])) = Json.object [] ∧
    readBooks (DataFile.document (Json.object [])) ≠ Json.array [] ∧
    collectionOf (readBooks (DataFile.document (Json.object []))) = none ∧
    collectionOf (readBooks (DataFile.document
      (Json.array [JsonItem.scalar (JsValue.number 1)]))) = none := by
  decide

/-- C19: a save that completes, followed by a load, returns a Collection equal
to the one saved: as many records, in the same order, each with the same value
for every field, and the very same list when no property of a record is
`undefined`; the file after the save does not depend on what it held before. -/
theorem save_then_load (env : Env) (books : List Book) (file : DataFile)
    (hw : env.writeError = none) :
    ∃ loaded,
      collectionOf (readBooks (fileAfterWrite env books file)) = some loaded ∧
      loaded.length = books.length ∧
      (∀ (i : Nat) (b : Book), books[i]? = some b →
        ∃ l, loaded[i]? = some l ∧ ∀ k, getProp l k = getProp b k) ∧
      ((∀ b ∈ books, ∀ p ∈ b, getProp b p.1 ≠ JsValue.undefined) → loaded = books) ∧
      (∀ other, fileAfterWrite env books other = fileAfterWrite env books file) := by
  have hfile : ∀ f, fileAfterWrite env books f = DataFile.document (stringifyBooks books) := by
    intro f
    simp [fileAfterWrite, writeBooks, hw]
  refine ⟨books.map (fun b => b.filter (fun p => decide (getProp b p.1 ≠ JsValue.undefined))),
    ?_, ?_, ?_, ?_, ?_⟩
  · rw [hfile]
    exact collectionOf_stringifyBooks books
  · simp
  · intro i b hb
    refine ⟨b.filter (fun p => decide (getProp b p.1 ≠ JsValue.undefined)), ?_, ?_⟩
    · rw [List.getElem?_map, hb]
      rfl
    · exact fun k => getProp_stringified b k
  · intro hdef
    have hid : ∀ b ∈ books,
        b.filter (fun p => decide (getProp b p.1 ≠ JsValue.undefined)) = b := by
      intro b hb
      rw [List.filter_eq_self]
      intro p hp
      simpa using hdef b hb p hp
    calc books.map (fun b => b.filter (fun p => decide (getProp b p.1 ≠ JsValue.undefined)))
        = books.map id := List.map_congr_left hid
      _ = books := List.map_id books
  · intro other
    rw [hfile, hfile]

/-- C19 witness: a save of a record with null isbn and empty description and of
a record with quotation marks and an apostrophe in its text, over a file that
could not be parsed. -/
theorem save_then_load_witness :
    sampleEnv.writeError = none ∧
    ∃ loaded,
      collectionOf (readBooks (fileAfterWrite sampleEnv [emma, quoted]
        (DataFile.unparsable "invalid json"))) = some loaded ∧
      loaded.length = [emma, quoted].length ∧
      (∀ (i : Nat) (b : Book), [emma, quoted][i]? = some b →
        ∃ l, loaded[i]? = some l ∧ ∀ k, getProp l k = getProp b k) ∧
      ((∀ b ∈ [emma, quoted], ∀ p ∈ b, getProp b p.1 ≠ JsValue.undefined) →
        loaded = [emma, quoted]) ∧
      (∀ other, fileAfterWrite sampleEnv [emma, quoted] other =
        fileAfterWrite sampleEnv [emma, quoted] (DataFile.unparsable "invalid json")) :=
  ⟨by decide,
   save_then_load sampleEnv [emma, quoted] (DataFile.unparsable "invalid json") (by decide)⟩

/-- C20, as stated, fails: when `fs.writeFile` rejects for lack of permission
and when it rejects for lack of space, `writeBooks` throws the same error,
whose only content is the message "Failed to write to database", and the
handler sends the same response; the original write error is not carried. -/
theorem writeBooks_drops_cause :
    deniedEnv.writeError = some "EACCES: permission denied" ∧
    fullDiskEnv.writeError = some "ENOSPC: no space left on device" ∧
    writeBooks deniedEnv [dune] = Except.error "Failed to write to database" ∧
    writeBooks fullDiskEnv [dune] = Except.error "Failed to write to database" ∧
    (postBooks minimalBody [dune] deniedEnv).response =
      { status := 500, success := false, message := some "Failed to create book",
        error := some "Failed to write to database" } ∧
    postBooks minimalBody [dune] deniedEnv = postBooks minimalBody [dune] fullDiskEnv :=
  ⟨rfl, rfl, rfl, rfl, by decide, by decide⟩

/-- C20, amended: `writeBooks` fails if and only if `fs.writeFile` rejects; when
it fails, the error surfaced to the caller has the message "Failed to write to
database" and nothing else, the same for every underlying cause; when it does
not fail it has stored the array it was given. -/
theorem writeBooks_fails_iff (env : Env) (books : List Book) :
    ((∃ e, writeBooks env books = Except.error e) ↔ ∃ cause, env.writeError = some cause) ∧
    (writeBooks env books = Except.error "Failed to write to database" ↔
      ∃ cause, env.writeError = some cause) ∧
    (writeBooks env books = Except.ok books ↔ env.writeError = none) := by
  cases hw : env.writeError with
  | none => simp [writeBooks, hw]
  | some cause => simp [writeBooks, hw]

/-- C21: id uniqueness is preserved.  When the ids of the records of the
collection are pairwise distinct and the identifier generator returns a
non-empty id that no record of the collection has, the collection stored by a
successful Create, Update or Delete has pairwise distinct ids, and the id of
the record a Create returns is the generated id, a non-empty string. -/
theorem id_unique_preserved (books : List Book) (env : Env) (h : IdUnique books)
    (hfresh : ∀ b ∈ books, getProp b "id" ≠ JsValue.string env.uuid)
    (hne : env.uuid ≠ "") :
    (∀ body, (postBooks body books env).response.success = true →
      ∃ created stored,
        (postBooks body books env).response.data = some (Data.book created) ∧
        (postBooks body books env).written = some stored ∧ IdUnique stored ∧
        getProp created "id" = JsValue.string env.uuid ∧
        (getProp created "id").truthy = true) ∧
    (∀ id body, (putBook id body books env).response.success = true →
      ∃ stored, (putBook id body books env).written = some stored ∧ IdUnique stored) ∧
    (∀ id, (deleteBook id books env).response.success = true →
      ∃ stored, (deleteBook id books env).written = some stored ∧ IdUnique stored) := by
  refine ⟨?_, ?_, ?_⟩
  · intro body hs
    obtain ⟨-, -, -, -, he⟩ := postBooks_success body books env hs
    have hidnew : getProp (newBook body env) "id" = JsValue.string env.uuid :=
      (getProp_newBook body env).1
    refine ⟨newBook body env, books ++ [newBook body env], by rw [he], by rw [he], ?_,
      hidnew, ?_⟩
    · apply idUnique_append books _ h
      intro b hb
      rw [hidnew]
      exact hfresh b hb
    · rw [hidnew]
      simpa [JsValue.truthy] using hne
  · intro id body hs
    obtain ⟨i, current, -, hcur, -, -, -, he⟩ := putBook_success id body books env hs
    refine ⟨books.set i (updatedBook current body env), by rw [he], ?_⟩
    apply idUnique_set books i current _ h hcur
    exact getProp_updatedBook_other current body env "id" (by decide) (by decide) (by decide)
      (by decide) (by decide) (by decide) (by decide)
  · intro id hs
    obtain ⟨i, removed, -, -, -, he⟩ := deleteBook_success id books env hs
    exact ⟨books.eraseIdx i, by rw [he], idUnique_eraseIdx books i h⟩

/-- C21 witness: the two-record collection, whose ids are "b1" and "b2", with
the generated id "6f1c"; Create of the minimal body. -/
theorem id_unique_preserved_witness :
    (IdUnique [dune, emma] ∧
      (∀ b ∈ [dune, emma], getProp b "id" ≠ JsValue.string sampleEnv.uuid) ∧
      sampleEnv.uuid ≠ "" ∧
      (postBooks minimalBody [dune, emma] sampleEnv).response.success = true) ∧
    ∃ created stored,
      (postBooks minimalBody [dune, emma] sampleEnv).response.data = some (Data.book created) ∧
      (postBooks minimalBody [dune, emma] sampleEnv).written = some stored ∧
      IdUnique stored ∧
      getProp created "id" = JsValue.string sampleEnv.uuid ∧
      (getProp created "id").truthy = true :=
  ⟨by decide,
   (id_unique_preserved [dune, emma] sampleEnv (by decide) (by decide) (by decide)).1
     minimalBody (by decide)⟩

/-- C22: Get answers 200 with the first record of the collection that has the
id when some record has it, and 404 "Book not found" exactly when no record has
it; on the empty collection it answers 404 for every id. -/
theorem get_returns_first_match (id : String) (books : List Book) :
    ((∃ b ∈ books, getProp b "id" = JsValue.string id) →
      ∃ front found back,
        books = front ++ found :: back ∧
        (∀ b ∈ front, getProp b "id" ≠ JsValue.string id) ∧
        getProp found "id" = JsValue.string id ∧
        getBook id books =
          { status := 200, success := true, data := some (Data.book found) }) ∧
    (getBook id books = { status := 404, success := false, message := some "Book not found" } ↔
      ∀ b ∈ books, getProp b "id" ≠ JsValue.string id) ∧
    getBook id [] = { status := 404, success := false, message := some "Book not found" } := by
  refine ⟨?_, ?_, rfl⟩
  · rintro ⟨b, hb, hid⟩
    cases hfind : books.find? (fun b => strictEq (getProp b "id") (JsValue.string id)) with
    | none =>
      rw [List.find?_eq_none] at hfind
      exact absurd ((strictEq_iff _ _).mpr hid) (hfind b hb)
    | some found =>
      obtain ⟨hp, front, back, hsplit, hfront⟩ := List.find?_eq_some.mp hfind
      refine ⟨front, found, back, hsplit, ?_, (strictEq_iff _ _).mp hp, ?_⟩
      · intro a ha heq
        have := hfront a ha
        rw [(strictEq_iff _ _).mpr heq] at this
        cases this
      · simp only [getBook, hfind]
  · cases hfind : books.find? (fun b => strictEq (getProp b "id") (JsValue.string id)) with
    | none =>
      simp only [getBook, hfind, true_iff]
      rw [List.find?_eq_none] at hfind
      intro b hb heq
      exact hfind b hb ((strictEq_iff _ _).mpr heq)
    | some found =>
      have hp := List.find?_some hfind
      have hmem := List.mem_of_find?_eq_some hfind
      simp only [getBook, hfind]
      constructor
      · intro h
        simp at h
      · intro h
        exact absurd ((strictEq_iff _ _).mp hp) (h found hmem)

/-- C22 witness: Get of "b1" in a collection in which the second and the third
record have that id returns the second, and Get of "nobody" answers 404. -/
theorem get_returns_first_match_witness :
    (∃ b ∈ [emma, dune, duneAgain], getProp b "id" = JsValue.string "b1") ∧
    (∃ front found back,
      [emma, dune, duneAgain] = front ++ found :: back ∧
      (∀ b ∈ front, getProp b "id" ≠ JsValue.string "b1") ∧
      getProp found "id" = JsValue.string "b1" ∧
      getBook "b1" [emma, dune, duneAgain] =
        { status := 200, success := true, data := some (Data.book found) }) ∧
    getBook "b1" [emma, dune, duneAgain] =
      { status := 200, success := true, data := some (Data.book dune) } ∧
    getBook "nobody" [emma, dune, duneAgain] =
      { status := 404, success := false, message := some "Book not found" } :=
  ⟨by decide, (get_returns_first_match "b1" [emma, dune, duneAgain]).1 (by decide), by decide,
    (get_returns_first_match "nobody" [emma, dune, duneAgain]).2.1.mpr (by decide)⟩

/-- C23, on the code: the collection of one record without genre is a
Collection that load returns, and Search of "zzz" in it answers 500 "Failed to
search books", since reading `toLowerCase` of the absent genre throws; the same
for every query in a collection whose record has a null title. -/
theorem search_fails_on_absent_field :
    getProp noGenre "genre" = JsValue.undefined ∧
    collectionOf (readBooks (DataFile.document (Json.array [JsonItem.object noGenre]))) =
      some [noGenre] ∧
    searchBooks asciiLower "zzz" [noGenre] =
      { status := 500, success := false, message := some "Failed to search books",
        error := some "TypeError" } ∧
    getProp nullTitle "title" = JsValue.null ∧
    searchBooks asciiLower "Fiction" [nullTitle] =
      { status := 500, success := false, message := some "Failed to search books",
        error := some "TypeError" } := by
  decide

/-- C24: after a successful Update the stored collection has the length of the
collection found, the updated record is at the position of the record it
replaces, which is the first record with the id, and the record at every other
position is unchanged. -/
theorem update_frame (id : String) (body : JsObject) (books : List Book) (env : Env)
    (hs : (putBook id body books env).response.success = true) :
    ∃ i current updated stored,
      findIndexById books id = some i ∧ books[i]? = some current ∧
      getProp current "id" = JsValue.string id ∧
      (∀ (j : Nat) (b : Book), j < i → books[j]? = some b →
        getProp b "id" ≠ JsValue.string id) ∧
      (putBook id body books env).response.data = some (Data.book updated) ∧
      (putBook id body books env).written = some stored ∧
      stored.length = books.length ∧
      stored[i]? = some updated ∧
      ∀ (j : Nat), j ≠ i → stored[j]? = books[j]? := by
  obtain ⟨i, current, hidx, hcur, -, -, -, he⟩ := putBook_success id body books env hs
  obtain ⟨c, hc, -, hid, hmin⟩ := findIndexById_some books id i hidx
  rw [hcur] at hc
  cases hc
  obtain ⟨hlt, -⟩ := List.getElem?_eq_some.mp hcur
  refine ⟨i, current, updatedBook current body env, books.set i (updatedBook current body env),
    hidx, hcur, hid, hmin, by rw [he], by rw [he], List.length_set books i _, ?_, ?_⟩
  · exact List.getElem?_set_self hlt
  · intro j hj
    exact List.getElem?_set_ne (Ne.symm hj)

/-- C24 witness: Update of the id "b1" in a collection in which the second and
the third record have it. -/
theorem update_frame_witness :
    (putBook "b1" minimalBody [emma, dune, duneAgain] sampleEnv).response.success = true ∧
    ∃ i current updated stored,
      findIndexById [emma, dune, duneAgain] "b1" = some i ∧
      [emma, dune, duneAgain][i]? = some current ∧
      getProp current "id" = JsValue.string "b1" ∧
      (∀ (j : Nat) (b : Book), j < i → [emma, dune, duneAgain][j]? = some b →
        getProp b "id" ≠ JsValue.string "b1") ∧
      (putBook "b1" minimalBody [emma, dune, duneAgain] sampleEnv).response.data =
        some (Data.book updated) ∧
      (putBook "b1" minimalBody [emma, dune, duneAgain] sampleEnv).written = some stored ∧
      stored.length = [emma, dune, duneAgain].length ∧
      stored[i]? = some updated ∧
      ∀ (j : Nat), j ≠ i → stored[j]? = [emma, dune, duneAgain][j]? :=
  ⟨by decide, update_frame "b1" minimalBody [emma, dune, duneAgain] sampleEnv (by decide)⟩

end BookAPI
